import Mathlib

/-!
# Verification of the Game Boy emulator core against its specification

Shallow embedding of the parts of the emulator that the checked claims are
about, translated from the Rust sources:

* `src/GB/BUS.rs` — the `Bus` type: MBC mapping, memory-mapped I/O,
  VRAM/OAM access gating, OAM DMA, and the DIV/TIMA/PPU clocking in
  `Bus::step`.
* `src/core/mmu/mod.rs` — the `MMU` type with `read_byte`/`write_byte`.
* `src/core/cpu/mod.rs` (plus `instructions/mod.rs`, `instructions/control.rs`)
  — CPU registers, `push_word`/`pop_word`, interrupt dispatch
  (`check_and_handle_interrupts`) and the opcode dispatch entry
  (`decode_and_execute`).
* `src/core/ppu/mod.rs` — the `PPU::step` scanline state machine.
* `src/lib.rs` — `GameBoy::step`, the host-facing step with its
  error-recovery path.

Conventions of the embedding:

* Machine integers become `Nat`; wrapping arithmetic is written with an
  explicit `% 2^w`; bitwise operators are `Nat`'s `&&&`, `|||`, `^^^`, `<<<`.
* `Vec<u8>` buffers become a contents function `Nat → Nat` paired with an
  explicit length; fixed-size arrays become plain functions.
* `&mut self` methods become state-passing functions; `Rc<RefCell<MMU>>`
  sharing between CPU and PPU becomes explicit threading of one `MMU` value
  (the emulator is single threaded, so `try_borrow` never fails and the
  `BorrowError` path is dead).
* `Result<T>` methods whose every path returns `Ok` are translated as pure
  functions; genuinely fallible methods return `Except Error`.
* Logging (`log::…`, `println!`, log files) and the two debug-once flags of
  `Bus` are not emulator state and are dropped; the `Bus` framebuffer and the
  `PPU` display/video sinks are host-facing output written by the rendering
  code only, no claim mentions them, and they are omitted from the state, so
  `Bus::render_scanline` (which writes only `self.framebuffer`) becomes the
  identity on the embedded state.
* The instruction set is embedded along the exact dispatch structure of the
  source, but only the opcode groups that some claim exercises are given
  their semantics (NOP, HALT, STOP, EI, DI, RST, and the illegal-opcode
  paths); every other dispatch arm is mapped to the explicit error marker
  `Error.unmodelledArm`, so no theorem can silently depend on an
  untranslated instruction. No theorem in this file reaches such an arm.
-/

/-- Modelled from the spec: the file `src/GB/RAM.rs` (the backing store used
by the GB-module `Bus`) is referenced by `BUS.rs` (`use crate::GB::RAM::RAM`)
but is not present in the source tree. Per spec §3.2 and §9 it is a plain
byte store over the 16-bit address space in which Echo RAM (0xE000–0xFDFF)
mirrors Work RAM (0xC000–0xDDFF) on both read and write; all other addresses
are independent byte cells. -/
structure RAM where
  data : Nat → Nat

/-- Modelled from the spec: the backing byte cell an address resolves to —
Echo RAM (0xE000–0xFDFF) resolves to the mirrored Work-RAM cell. -/
def RAM.cell (addr : Nat) : Nat :=
  if 0xE000 ≤ addr ∧ addr ≤ 0xFDFF then addr - 0x2000 else addr

/-- Modelled from the spec: plain byte read, with the Echo-RAM mirror. -/
def RAM.read (r : RAM) (addr : Nat) : Nat :=
  r.data (RAM.cell addr)

/-- Modelled from the spec: plain byte write, with the Echo-RAM mirror. -/
def RAM.write (r : RAM) (addr v : Nat) : RAM :=
  ⟨fun x => if x = RAM.cell addr then v else r.data x⟩

/-- `enum MbcType` from `src/GB/BUS.rs`. -/
inductive MbcType where
  | none
  | mbc1
  | mbc3
  | mbc5
deriving DecidableEq

/-- The `Bus` struct from `src/GB/BUS.rs`.  `rom`/`ext_ram` (`Vec<u8>`) are a
contents function plus a length; `mbc3_rtc_regs` (`[u8; 5]`) is a function on
indices 0..4.  The `framebuffer` and the two `dbg_*_first_write_done`
debug-print flags are omitted (see the file header). -/
structure Bus where
  ram : RAM
  rom : Nat → Nat
  rom_len : Nat
  rom_banks : Nat
  mbc : MbcType
  ram_enable : Bool
  rom_bank : Nat
  ram_bank : Nat
  ext_ram : Nat → Nat
  ext_ram_len : Nat
  mbc1_bank_low5 : Nat
  mbc1_bank_high2 : Nat
  mbc1_mode : Nat
  mbc3_rtc_sel : Option Nat
  mbc3_rtc_regs : Nat → Nat
  ie : Nat
  ifl : Nat
  p1 : Nat
  div : Nat
  tima : Nat
  tma : Nat
  tac : Nat
  dma : Nat
  lcdc : Nat
  stat_w : Nat
  scy : Nat
  scx : Nat
  ly : Nat
  lyc : Nat
  bgp : Nat
  obp0 : Nat
  obp1 : Nat
  wy : Nat
  wx : Nat
  ppu_line_cycle : Nat
  ppu_mode : Nat
  div_counter : Nat
  tima_counter : Nat

/-- `Bus::mbc1_calc_bank0` (BUS.rs lines 161–168). -/
def Bus.mbc1_calc_bank0 (b : Bus) : Nat :=
  if b.mbc1_mode &&& 1 = 0 then 0 else (b.mbc1_bank_high2 &&& 0x03) <<< 5

/-- `Bus::mbc1_calc_bankX` (BUS.rs lines 169–183): the ROM bank used for the
high window 0x4000–0x7FFF.  In ROM-banking mode it combines `high2:low5`; in
RAM-banking mode only the low 5 bits apply; a result whose low 5 bits are 0
gets bit 0 forced to 1. -/
def Bus.mbc1_calc_bankX (b : Bus) : Nat :=
  let low5 := b.mbc1_bank_low5 &&& 0x1F
  let bank :=
    if b.mbc1_mode &&& 1 = 0 then
      low5 ||| ((b.mbc1_bank_high2 &&& 0x03) <<< 5)
    else
      low5
  if bank &&& 0x1F = 0 then bank ||| 1 else bank

/-- `Bus::read_rom` (BUS.rs lines 184–262). -/
def Bus.read_rom (b : Bus) (addr : Nat) : Nat :=
  if b.rom_banks = 0 then 0xFF
  else
    match b.mbc with
    | .none =>
        if addr < b.rom_len then b.rom addr else 0xFF
    | .mbc1 =>
        if addr < 0x4000 then
          let bank0 := b.mbc1_calc_bank0 % b.rom_banks
          let i := bank0 * 0x4000 + addr
          if i < b.rom_len then b.rom i else 0xFF
        else
          let bankx := b.mbc1_calc_bankX % b.rom_banks
          let i := bankx * 0x4000 + (addr - 0x4000)
          if i < b.rom_len then b.rom i else 0xFF
    | .mbc3 =>
        if addr < 0x4000 then
          if addr < b.rom_len then b.rom addr else 0xFF
        else
          let bank := b.rom_bank &&& 0x7F
          let bank := if bank = 0 then 1 else bank
          let i := (bank % b.rom_banks) * 0x4000 + (addr - 0x4000)
          if i < b.rom_len then b.rom i else 0xFF
    | .mbc5 =>
        if addr < 0x4000 then
          if addr < b.rom_len then b.rom addr else 0xFF
        else
          let bank := b.rom_bank % b.rom_banks
          let i := bank * 0x4000 + (addr - 0x4000)
          if i < b.rom_len then b.rom i else 0xFF

/-- `Bus::write_mbc` (BUS.rs lines 264–345): control-register writes to
0x0000–0x7FFF. -/
def Bus.write_mbc (b : Bus) (addr v : Nat) : Bus :=
  match b.mbc with
  | .none => b
  | .mbc1 =>
      if addr ≤ 0x1FFF then
        { b with ram_enable := v &&& 0x0F = 0x0A }
      else if addr ≤ 0x3FFF then
        let low5 := v &&& 0x1F
        let low5 := if low5 = 0 then 1 else low5
        { b with mbc1_bank_low5 := low5 }
      else if addr ≤ 0x5FFF then
        let b := { b with mbc1_bank_high2 := v &&& 0x03 }
        if b.mbc1_mode &&& 1 = 1 then
          { b with ram_bank := b.mbc1_bank_high2 &&& 0x03 }
        else b
      else if addr ≤ 0x7FFF then
        { b with mbc1_mode := v &&& 0x01 }
      else b
  | .mbc3 =>
      if addr ≤ 0x1FFF then
        { b with ram_enable := v &&& 0x0F = 0x0A }
      else if addr ≤ 0x3FFF then
        let bk := v &&& 0x7F
        let bk := if bk = 0 then 1 else bk
        { b with rom_bank := bk }
      else if addr ≤ 0x5FFF then
        let v := v &&& 0x0F
        if v ≤ 0x03 then { b with ram_bank := v, mbc3_rtc_sel := none }
        else if 0x08 ≤ v ∧ v ≤ 0x0C then { b with mbc3_rtc_sel := some v }
        else b
      else b
  | .mbc5 =>
      if addr ≤ 0x1FFF then
        { b with ram_enable := v &&& 0x0F = 0x0A }
      else if addr ≤ 0x2FFF then
        { b with rom_bank := (b.rom_bank &&& 0x100) ||| v }
      else if addr ≤ 0x3FFF then
        { b with rom_bank := (b.rom_bank &&& 0x0FF) ||| ((v &&& 0x01) <<< 8) }
      else if addr ≤ 0x5FFF then
        { b with ram_bank := v &&& 0x0F }
      else b

/-- `Bus::read` (BUS.rs lines 524–615).  The match arms are translated in
source order; VRAM reads are gated (0xFF) while the LCD is on in mode 3, OAM
reads while the LCD is on in mode 2 or 3. -/
def Bus.read (b : Bus) (addr : Nat) : Nat :=
  if addr ≤ 0x7FFF then
    if b.rom_banks > 0 then b.read_rom addr else b.ram.read addr
  else if addr = 0xFF40 then b.lcdc
  else if addr = 0xFF41 then
    let coincidence := if b.ly = b.lyc then 0x04 else 0x00
    0x80 ||| (b.stat_w &&& 0x78) ||| coincidence ||| (b.ppu_mode &&& 0x03)
  else if addr = 0xFF42 then b.scy
  else if addr = 0xFF43 then b.scx
  else if addr = 0xFF44 then b.ly
  else if addr = 0xFF45 then b.lyc
  else if addr = 0xFFFF then b.ie
  else if addr = 0xFF0F then b.ifl ||| 0xE0
  else if addr = 0xFF00 then b.p1
  else if addr = 0xFF04 then b.div
  else if addr = 0xFF05 then b.tima
  else if addr = 0xFF06 then b.tma
  else if addr = 0xFF07 then b.tac ||| 0xF8
  else if addr = 0xFF47 then b.bgp
  else if addr = 0xFF48 then b.obp0
  else if addr = 0xFF49 then b.obp1
  else if addr = 0xFF4A then b.wy
  else if addr = 0xFF4B then b.wx
  else if addr = 0xFF46 then b.dma
  else if 0xA000 ≤ addr ∧ addr ≤ 0xBFFF then
    match b.mbc with
    | .mbc3 =>
        match b.mbc3_rtc_sel with
        | some sel =>
            let idx := sel - 0x08
            if idx < 5 then b.mbc3_rtc_regs idx else 0
        | Option.none =>
            if b.ext_ram_len = 0 ∨ ¬b.ram_enable then 0xFF
            else
              let bank := b.ram_bank &&& 0x03
              let off := (addr - 0xA000) &&& 0x1FFF
              let i := bank * 0x2000 + off
              if i < b.ext_ram_len then b.ext_ram i else 0xFF
    | other =>
        if b.ext_ram_len = 0 ∨ ¬b.ram_enable then 0xFF
        else
          let bank :=
            match other with
            | .mbc1 => if b.mbc1_mode &&& 1 = 0 then 0 else b.ram_bank &&& 0x03
            | .mbc5 => b.ram_bank &&& 0x0F
            | _ => 0
          let off := (addr - 0xA000) &&& 0x1FFF
          let i := bank * 0x2000 + off
          if i < b.ext_ram_len then b.ext_ram i else 0xFF
  else if 0x8000 ≤ addr ∧ addr ≤ 0x9FFF then
    if b.lcdc &&& 0x80 ≠ 0 ∧ b.ppu_mode = 3 then 0xFF else b.ram.read addr
  else if 0xFE00 ≤ addr ∧ addr ≤ 0xFE9F then
    if b.lcdc &&& 0x80 ≠ 0 ∧ (b.ppu_mode = 2 ∨ b.ppu_mode = 3) then 0xFF
    else b.ram.read addr
  else b.ram.read addr

/-- One iteration of the OAM-DMA copy loop in the 0xFF46 arm of `Bus::write`
(BUS.rs lines 667–676): `let b = self.read((src + i) & 0xFFFF);`
`self.ram.write((0xFE00 + i) & 0xFFFF, b)` on the current (partially
updated) bus state, exactly as the source loop does. -/
def Bus.dmaCopy (src : Nat) (b : Bus) (i : Nat) : Bus :=
  { b with ram := b.ram.write ((0xFE00 + i) % 65536) (b.read ((src + i) % 65536)) }

/-- `Bus::write` (BUS.rs lines 617–753), match arms in source order.  The
0xFF46 arm performs the OAM DMA copy immediately: 160 iterations of
`let b = self.read(src + i); self.ram.write(0xFE00 + i, b)` on the current
(partially updated) state, exactly as the source loop does. -/
def Bus.write (b : Bus) (addr v : Nat) : Bus :=
  if addr ≤ 0x7FFF then
    if b.rom_banks > 0 then b.write_mbc addr v
    else { b with ram := b.ram.write addr v }
  else if addr = 0xFF40 then { b with lcdc := v }
  else if addr = 0xFF41 then { b with stat_w := v &&& 0x78 }
  else if addr = 0xFF42 then { b with scy := v }
  else if addr = 0xFF43 then { b with scx := v }
  else if addr = 0xFF44 then
    { b with ly := 0, ppu_line_cycle := 0, ppu_mode := 2 }
  else if addr = 0xFF45 then { b with lyc := v }
  else if addr = 0xFFFF then { b with ie := v }
  else if addr = 0xFF0F then { b with ifl := v &&& 0x1F }
  else if addr = 0xFF00 then { b with p1 := v }
  else if addr = 0xFF04 then { b with div := 0, div_counter := 0 }
  else if addr = 0xFF05 then { b with tima := v }
  else if addr = 0xFF06 then { b with tma := v }
  else if addr = 0xFF07 then { b with tac := v &&& 0x07 }
  else if addr = 0xFF46 then
    let b := { b with dma := v }
    (List.range 160).foldl (Bus.dmaCopy (v <<< 8)) b
  else if addr = 0xFF47 then { b with bgp := v }
  else if addr = 0xFF48 then { b with obp0 := v }
  else if addr = 0xFF49 then { b with obp1 := v }
  else if addr = 0xFF4A then { b with wy := v }
  else if addr = 0xFF4B then { b with wx := v }
  else if 0xA000 ≤ addr ∧ addr ≤ 0xBFFF then
    match b.mbc with
    | .mbc3 =>
        match b.mbc3_rtc_sel with
        | some sel =>
            let idx := sel - 0x08
            if idx < 5 then
              { b with mbc3_rtc_regs :=
                  fun x => if x = idx then v else b.mbc3_rtc_regs x }
            else b
        | Option.none =>
            if ¬(b.ext_ram_len = 0 ∨ ¬b.ram_enable) then
              let bank := b.ram_bank &&& 0x03
              let off := (addr - 0xA000) &&& 0x1FFF
              let i := bank * 0x2000 + off
              if i < b.ext_ram_len then
                { b with ext_ram := fun x => if x = i then v else b.ext_ram x }
              else b
            else b
    | other =>
        if b.ext_ram_len = 0 ∨ ¬b.ram_enable then b
        else
          let bank :=
            match other with
            | .mbc1 => if b.mbc1_mode &&& 1 = 0 then 0 else b.ram_bank &&& 0x03
            | .mbc5 => b.ram_bank &&& 0x0F
            | _ => 0
          let off := (addr - 0xA000) &&& 0x1FFF
          let i := bank * 0x2000 + off
          if i < b.ext_ram_len then
            { b with ext_ram := fun x => if x = i then v else b.ext_ram x }
          else b
  else if 0x8000 ≤ addr ∧ addr ≤ 0x9FFF then
    if b.lcdc &&& 0x80 ≠ 0 ∧ b.ppu_mode = 3 then b
    else { b with ram := b.ram.write addr v }
  else if 0xFE00 ≤ addr ∧ addr ≤ 0xFE9F then
    if b.lcdc &&& 0x80 ≠ 0 ∧ (b.ppu_mode = 2 ∨ b.ppu_mode = 3) then b
    else { b with ram := b.ram.write addr v }
  else { b with ram := b.ram.write addr v }

/-- `Bus::tima_period_cycles` (BUS.rs lines 764–773): TIMA period in T-cycles
selected by the low 2 bits of TAC. -/
def Bus.tima_period_cycles (b : Bus) : Nat :=
  if b.tac &&& 0x03 = 0x00 then 1024
  else if b.tac &&& 0x03 = 0x01 then 16
  else if b.tac &&& 0x03 = 0x02 then 64
  else 256

/-- One iteration body of the TIMA `while` loop in `Bus::step` (BUS.rs lines
789–797): a TIMA tick.  At 0xFF the tick reloads TIMA from TMA and requests
the timer interrupt (IF bit 2); otherwise it increments TIMA
(`wrapping_add(1)`).  Returns the new `(tima, ifl)`. -/
def timaTick (tima tma ifl : Nat) : Nat × Nat :=
  if tima = 0xFF then (tma, ifl ||| 0x04) else ((tima + 1) % 256, ifl)

/-- The TIMA `while tima_counter >= period` loop of `Bus::step` (BUS.rs lines
789–797), as a recursive function on `(counter, tima, ifl)`.  The source's
`period` is always one of 1024/16/64/256 (see `Bus.tima_period_cycles`), so
the extra `0 < period` in the guard (needed for termination) never differs
from the source's `period ≤ counter` test. -/
def timaLoop (period counter tima tma ifl : Nat) : Nat × Nat × Nat :=
  if h : 0 < period ∧ period ≤ counter then
    let p := timaTick tima tma ifl
    timaLoop period (counter - period) p.1 tma p.2
  else (counter, tima, ifl)
termination_by counter
decreasing_by
  exact Nat.sub_lt (Nat.lt_of_lt_of_le h.1 h.2) h.1

/-- The DIV section of `Bus::step` (BUS.rs lines 777–783). -/
def Bus.stepDiv (b : Bus) (c : Nat) : Bus :=
  let dc := (b.div_counter + c) % 4294967296
  if dc ≥ 256 then
    let inc := dc / 256
    { b with div := (b.div + (inc &&& 0xFF)) % 256, div_counter := dc % 256 }
  else { b with div_counter := dc }

/-- The TIMA section of `Bus::step` (BUS.rs lines 785–798). -/
def Bus.stepTimer (b : Bus) (c : Nat) : Bus :=
  if b.tac &&& 0x04 ≠ 0 then
    let period := b.tima_period_cycles
    let tc := (b.tima_counter + c) % 4294967296
    let r := timaLoop period tc b.tima b.tma b.ifl
    { b with tima_counter := r.1, tima := r.2.1, ifl := r.2.2 }
  else b

/-- `Bus::render_scanline` (BUS.rs lines 361–514) reads VRAM/OAM and the
palette registers and writes only `self.framebuffer`; since the framebuffer
is omitted from the embedded state (see the file header) it is the identity
here. -/
def Bus.render_scanline (b : Bus) : Bus := b

/-- The end-of-line block of the PPU loop in `Bus::step` (BUS.rs lines
850–870): reset the dot counter, advance LY (`wrapping_add`), raise the
VBlank interrupt (and the STAT-VBlank source) on entering line 144, wrap LY
past 153, and raise the STAT coincidence source when LY==LYC. -/
def Bus.lineAdvance (b : Bus) : Bus :=
  let b : Bus := { b with ppu_line_cycle := 0, ly := (b.ly + 1) % 256 }
  let b : Bus :=
    if b.ly = 144 then
      let b : Bus := { b with ifl := b.ifl ||| 0x01 }
      if b.stat_w &&& 0x10 ≠ 0 then { b with ifl := b.ifl ||| 0x02 } else b
    else b
  let b : Bus := if b.ly > 153 then { b with ly := 0 } else b
  if b.stat_w &&& 0x40 ≠ 0 ∧ b.ly = b.lyc then { b with ifl := b.ifl ||| 0x02 }
  else b

/-- The `(mode, boundary)` computation at the top of each PPU loop iteration
in `Bus::step` (BUS.rs lines 804–813). -/
def Bus.ppuModeBoundary (b : Bus) : Nat × Nat :=
  if b.ly ≥ 144 then (1, 456)
  else if b.ppu_line_cycle < 80 then (2, 80)
  else if b.ppu_line_cycle < 252 then (3, 252)
  else (0, 456)

/-- The mode-transition block of the PPU loop (BUS.rs lines 814–845): on a
mode change, fire the masked STAT interrupt sources, render the scanline on a
3→0 transition of a visible line, and store the new mode. -/
def Bus.ppuModeSwitch (b : Bus) (mode : Nat) : Bus :=
  if mode ≠ b.ppu_mode then
    let b : Bus :=
      if mode = 2 then
        if b.stat_w &&& 0x20 ≠ 0 then { b with ifl := b.ifl ||| 0x02 } else b
      else if mode = 1 then
        if b.stat_w &&& 0x10 ≠ 0 then { b with ifl := b.ifl ||| 0x02 } else b
      else if mode = 0 then
        let b : Bus :=
          if b.ppu_mode = 3 ∧ b.ly < 144 then b.render_scanline else b
        if b.stat_w &&& 0x08 ≠ 0 then { b with ifl := b.ifl ||| 0x02 } else b
      else b
    { b with ppu_mode := mode }
  else b

/-- One iteration of the `while remain > 0` PPU loop of `Bus::step` (BUS.rs
lines 802–870): sync the mode, advance the dot counter by
`step = (boundary - line_cycle).min(remain)`, and run the end-of-line block
when the counter reaches 456.  Returns the new state and the `step` taken. -/
def Bus.ppuIterate (b : Bus) (remain : Nat) : Bus × Nat :=
  let mb := b.ppuModeBoundary
  let b1 := b.ppuModeSwitch mb.1
  let step := min (mb.2 - b1.ppu_line_cycle) remain
  let b2 : Bus := { b1 with ppu_line_cycle := b1.ppu_line_cycle + step }
  let b3 : Bus := if b2.ppu_line_cycle ≥ 456 then b2.lineAdvance else b2
  (b3, step)

/-- The `while remain > 0` PPU loop of `Bus::step` (BUS.rs lines 802–871).
With `ppu_line_cycle < 456` (the source invariant — spec §3.4,
`line_dot: 0..455`) the per-iteration `step` is always positive; the
`step = 0` exit below (where Rust's unsigned subtraction would panic instead
of looping) is unreachable from any state a theorem below uses. -/
def Bus.ppuLoop (remain : Nat) (b : Bus) : Bus :=
  if _h0 : remain = 0 then b
  else
    let r := b.ppuIterate remain
    if _h1 : r.2 = 0 then r.1
    else Bus.ppuLoop (remain - r.2) r.1
termination_by remain
decreasing_by
  exact Nat.sub_lt (Nat.pos_of_ne_zero _h0) (Nat.pos_of_ne_zero _h1)

/-- The PPU section of `Bus::step` (BUS.rs lines 800–880): with the LCD on,
run the scanline loop and then re-raise the STAT coincidence source if
LY==LYC; with the LCD off, force mode 0 and reset the dot counter. -/
def Bus.stepPpu (b : Bus) (c : Nat) : Bus :=
  if b.lcdc &&& 0x80 ≠ 0 then
    let b := Bus.ppuLoop c b
    if b.stat_w &&& 0x40 ≠ 0 ∧ b.ly = b.lyc then { b with ifl := b.ifl ||| 0x02 }
    else b
  else { b with ppu_mode := 0, ppu_line_cycle := 0 }

/-- `Bus::step` (BUS.rs lines 775–881): truncate the cycle count to u32, then
run the DIV, TIMA and PPU sections in source order. -/
def Bus.step (b : Bus) (cycles : Nat) : Bus :=
  let c := cycles % 4294967296
  ((b.stepDiv c).stepTimer c).stepPpu c

/-- `LCDRegisters` from `src/core/mmu/lcd_registers.rs`. -/
structure LCDRegisters where
  lcdc : Nat
  stat : Nat
  scy : Nat
  scx : Nat
  ly : Nat
  lyc : Nat
  dma : Nat
  bgp : Nat
  obp0 : Nat
  obp1 : Nat
  wy : Nat
  wx : Nat

/-- The external cartridge RAM of the core MMU (`Option<Vec<u8>>`). -/
structure ExtRam where
  data : Nat → Nat
  len : Nat

/-- The `MMU` struct from `src/core/mmu/mod.rs`.  `cartridge_rom` (`Vec<u8>`)
is a contents function plus a length; the fixed arrays are functions from the
region-relative offset.  `instance_id` (a wall-clock timestamp used only for
logging) is omitted. -/
structure MMU where
  cartridge_rom : Nat → Nat
  cartridge_rom_len : Nat
  work_ram : Nat → Nat
  high_ram : Nat → Nat
  video_ram : Nat → Nat
  object_attribute_memory : Nat → Nat
  io_registers : Nat → Nat
  interrupt_enable : Nat
  interrupt_flags : Nat
  lcd_registers : LCDRegisters
  ly : Nat
  lyc : Nat
  external_ram : Option ExtRam

/-- `MMU::read_byte` (mmu/mod.rs lines 109–208).  Every source path returns
`Ok`, so the `Result` wrapper is dropped.  Note the 0xFF0F special case: IF
reads come from the dedicated `interrupt_flags` field, all other I/O reads
from the `io_registers` array.  Addresses are u16 (`addr < 65536`); the final
arm is the source's `0xFFFF` case. -/
def MMU.read_byte (m : MMU) (addr : Nat) : Nat :=
  if addr ≤ 0x7FFF then
    if addr ≥ m.cartridge_rom_len then 0xFF else m.cartridge_rom addr
  else if addr ≤ 0x9FFF then m.video_ram (addr - 0x8000)
  else if addr ≤ 0xBFFF then
    match m.external_ram with
    | some ram => if addr - 0xA000 < ram.len then ram.data (addr - 0xA000) else 0xFF
    | Option.none => 0xFF
  else if addr ≤ 0xDFFF then m.work_ram (addr - 0xC000)
  else if addr ≤ 0xFDFF then m.work_ram (addr - 0xE000)
  else if addr ≤ 0xFE9F then m.object_attribute_memory (addr - 0xFE00)
  else if addr ≤ 0xFEFF then 0xFF
  else if addr ≤ 0xFF7F then
    if addr = 0xFF0F then m.interrupt_flags else m.io_registers (addr - 0xFF00)
  else if addr ≤ 0xFFFE then m.high_ram (addr - 0xFF80)
  else m.interrupt_enable

/-- `MMU::write_byte` (mmu/mod.rs lines 210–294).  Every source path returns
`Ok`.  Writes to ROM are logged and ignored; writes to any address in
0xFF00–0xFF7F (including 0xFF0F) go to the `io_registers` array — the
`interrupt_flags` field read back by `read_byte 0xFF0F` is not touched.  The
external-RAM arm indexes `(addr - 0xA000) % ram.len()`; with an empty vector
Rust would panic on the division, which cannot arise from `load_rom`, and the
embedding returns the state unchanged there. -/
def MMU.write_byte (m : MMU) (addr value : Nat) : MMU :=
  if addr ≤ 0x7FFF then m
  else if addr ≤ 0x9FFF then
    { m with video_ram :=
        fun x => if x = addr - 0x8000 then value else m.video_ram x }
  else if addr ≤ 0xBFFF then
    match m.external_ram with
    | some ram =>
        if ram.len = 0 then m
        else
          let off := (addr - 0xA000) % ram.len
          { m with external_ram :=
              (some (ExtRam.mk (fun x => if x = off then value else ram.data x)
                ram.len)) }
    | Option.none => m
  else if addr ≤ 0xDFFF then
    { m with work_ram :=
        fun x => if x = addr - 0xC000 then value else m.work_ram x }
  else if addr ≤ 0xFDFF then
    { m with work_ram :=
        fun x => if x = addr - 0xE000 then value else m.work_ram x }
  else if addr ≤ 0xFE9F then
    { m with object_attribute_memory :=
        fun x => if x = addr - 0xFE00 then value else m.object_attribute_memory x }
  else if addr ≤ 0xFEFF then m
  else if addr ≤ 0xFF7F then
    { m with io_registers :=
        fun x => if x = addr - 0xFF00 then value else m.io_registers x }
  else if addr ≤ 0xFFFE then
    { m with high_ram :=
        fun x => if x = addr - 0xFF80 then value else m.high_ram x }
  else { m with interrupt_enable := value }

/-- `InstructionError` from `src/core/error.rs` (the constructors a modelled
path can produce). -/
inductive InstructionError where
  | invalidOpcode (op : Nat)
  | invalidCondition (c : Nat)
deriving DecidableEq

/-- `Error` from `src/core/error.rs`, plus two explicit markers for source
code that is deliberately not translated: `unmodelledArm` for instruction
dispatch arms no claim exercises, and `unmodelledRender` for the PPU
rendering paths (and the source's `unreachable!()`).  No theorem below
evaluates through a marker. -/
inductive Error where
  | instruction (e : InstructionError)
  | unmodelledArm (opcode : Nat)
  | unmodelledRender
deriving DecidableEq

/-- The `Registers` struct from `src/core/cpu/registers.rs` (all u16). -/
structure Registers where
  af : Nat
  bc : Nat
  de : Nat
  hl : Nat
  sp : Nat
  pc : Nat

/-- `Registers::set_af` masks the low flag nibble (`value & 0xFFF0`). -/
def Registers.set_af (r : Registers) (value : Nat) : Registers :=
  { r with af := value &&& 0xFFF0 }

/-- The `CPU` struct from `src/core/cpu/mod.rs` (without the `Rc<RefCell<MMU>>`
back-pointer, which becomes explicit `MMU` threading). -/
structure CPU where
  registers : Registers
  halted : Bool
  ime : Bool
  ime_scheduled : Bool
  instruction_count : Nat

/-- `CPU::increment_pc` (cpu/mod.rs lines 429–433), `wrapping_add`. -/
def CPU.increment_pc (cpu : CPU) (amount : Nat) : CPU :=
  { cpu with registers :=
      { cpu.registers with pc := (cpu.registers.pc + amount) % 65536 } }

/-- `CPU::push_word` (cpu/mod.rs lines 126–132): write the high byte at
SP-1, the low byte at SP-2, then SP := SP-2 (all `wrapping_sub`).  The
`write_byte` calls go through the MMU (`try_borrow_mut` cannot fail in the
single-threaded embedding). -/
def CPU.push_word (cpu : CPU) (m : MMU) (value : Nat) : CPU × MMU :=
  let sp := cpu.registers.sp
  let m := m.write_byte ((sp + 65535) % 65536) ((value >>> 8) &&& 0xFF)
  let m := m.write_byte ((sp + 65534) % 65536) (value &&& 0xFF)
  ({ cpu with registers := { cpu.registers with sp := (sp + 65534) % 65536 } }, m)

/-- `CPU::pop_word` (cpu/mod.rs lines 134–141): read the low byte at SP, the
high byte at SP+1, then SP := SP+2 (all wrapping). -/
def CPU.pop_word (cpu : CPU) (m : MMU) : Nat × CPU × MMU :=
  let sp := cpu.registers.sp
  let low := m.read_byte sp
  let high := m.read_byte ((sp + 1) % 65536)
  let value := (high <<< 8) ||| low
  (value,
   { cpu with registers := { cpu.registers with sp := (sp + 2) % 65536 } }, m)

/-- The `for i in 0..5 { if (pending & (1 << i)) != 0 { …; break } }` scan of
`CPU::check_and_handle_interrupts`: the first (lowest) set bit index. -/
def serviceIndex (pending : Nat) : Option Nat :=
  (List.range 5).find? fun i => pending &&& (1 <<< i) != 0

/-- `CPU::check_and_handle_interrupts` (cpu/mod.rs lines 490–527): when IME
is set and `IF & IE & 0x1F` is non-zero, clear `halted` and IME, write the
masked IF back to 0xFF0F, push PC, and jump to `0x0040 + i*0x08` for the
lowest pending bit `i`.  All source paths return `Ok(())`; no cycle count is
produced. -/
def CPU.check_and_handle_interrupts (cpu : CPU) (m : MMU) : CPU × MMU :=
  if ¬cpu.ime then (cpu, m)
  else
    let if_flags := m.read_byte 0xFF0F
    let ie_flags := m.read_byte 0xFFFF
    let pending := if_flags &&& ie_flags &&& 0x1F
    if pending = 0 then (cpu, m)
    else
      let cpu := { cpu with halted := false, ime := false }
      match serviceIndex pending with
      | some i =>
          let new_if := if_flags &&& (0xFF ^^^ (1 <<< i))
          let m := m.write_byte 0xFF0F new_if
          let pc := cpu.registers.pc
          let (cpu, m) := CPU.push_word cpu m pc
          ({ cpu with registers :=
              { cpu.registers with pc := 0x0040 + i * 0x08 } }, m)
      | Option.none => (cpu, m)

/-- The result type of one instruction-dispatch call in the embedding:
Rust's `&mut self` methods returning `Result<CyclesType>` become a pair of
the (possibly mutated) state and the outcome. -/
abbrev ExecResult := (Except Error Nat) × CPU × MMU

/-- `ControlInstructions::halt` for CPU (cpu/mod.rs lines 246–249). -/
def CPU.halt (cpu : CPU) (m : MMU) : ExecResult :=
  (.ok 4, { cpu with halted := true }, m)

/-- `ControlInstructions::stop` for CPU (cpu/mod.rs lines 251–254): identical
to HALT in this implementation. -/
def CPU.stop (cpu : CPU) (m : MMU) : ExecResult :=
  (.ok 4, { cpu with halted := true }, m)

/-- `ControlInstructions::enable_interrupts` for CPU (cpu/mod.rs lines
256–260), the EI instruction: set `ime_scheduled` (not IME) and advance PC. -/
def CPU.enable_interrupts (cpu : CPU) (m : MMU) : ExecResult :=
  let cpu := { cpu with ime_scheduled := true }
  (.ok 4, cpu.increment_pc 1, m)

/-- `ControlInstructions::disable_interrupts` for CPU (cpu/mod.rs lines
262–266), the DI instruction: clear IME immediately and advance PC. -/
def CPU.disable_interrupts (cpu : CPU) (m : MMU) : ExecResult :=
  let cpu := { cpu with ime := false }
  (.ok 4, cpu.increment_pc 1, m)

/-- `ControlInstructions::ret` for CPU (cpu/mod.rs lines 302–307). -/
def CPU.ret (cpu : CPU) (m : MMU) : ExecResult :=
  let (addr, cpu, m) := cpu.pop_word m
  (.ok 16, { cpu with registers := { cpu.registers with pc := addr } }, m)

/-- `ControlInstructions::reti` for CPU (cpu/mod.rs lines 309–312). -/
def CPU.reti (cpu : CPU) (m : MMU) : ExecResult :=
  CPU.ret { cpu with ime := true } m

/-- `ControlInstructions::rst` for CPU (cpu/mod.rs lines 314–325): push
PC+1, jump to the RST target. -/
def CPU.rst (cpu : CPU) (m : MMU) (addr : Nat) : ExecResult :=
  let next_pc := (cpu.registers.pc + 1) % 65536
  let (cpu, m) := CPU.push_word cpu m next_pc
  (.ok 16, { cpu with registers := { cpu.registers with pc := addr } }, m)

/-- `control::dispatch` from `src/core/cpu/instructions/control.rs`, arms in
source order.  Arm bodies that no claim exercises are `Error.unmodelledArm`. -/
def Control.dispatch (cpu : CPU) (m : MMU) (opcode : Nat) : ExecResult :=
  if opcode = 0x76 then cpu.halt m
  else if opcode = 0x10 then cpu.stop m
  else if opcode = 0xFB then cpu.enable_interrupts m
  else if opcode = 0xF3 then cpu.disable_interrupts m
  else if opcode = 0xC8 then (.error (.unmodelledArm opcode), cpu, m)
  else if opcode = 0xCD then (.error (.unmodelledArm opcode), cpu, m)
  else if opcode = 0xC3 then (.error (.unmodelledArm opcode), cpu, m)
  else if opcode = 0x20 then (.error (.unmodelledArm opcode), cpu, m)
  else if opcode = 0x3E then (.error (.unmodelledArm opcode), cpu, m)
  else if opcode = 0x19 then (.error (.unmodelledArm opcode), cpu, m)
  else if opcode = 0xEA then (.error (.unmodelledArm opcode), cpu, m)
  else if opcode = 0x00 then (.ok 4, cpu.increment_pc 1, m)
  else if [0xC1, 0xD1, 0xE1, 0xF1].contains opcode then
    (.error (.unmodelledArm opcode), cpu, m)
  else if [0xC5, 0xD5, 0xE5, 0xF5].contains opcode then
    (.error (.unmodelledArm opcode), cpu, m)
  else if [0xC7, 0xCF, 0xD7, 0xDF, 0xE7, 0xEF, 0xF7, 0xFF].contains opcode then
    let address :=
      if opcode = 0xC7 then 0x00 else if opcode = 0xCF then 0x08
      else if opcode = 0xD7 then 0x10 else if opcode = 0xDF then 0x18
      else if opcode = 0xE7 then 0x20 else if opcode = 0xEF then 0x28
      else if opcode = 0xF7 then 0x30 else 0x38
    cpu.rst m address
  else if opcode = 0xC9 then cpu.ret m
  else if opcode = 0xD9 then cpu.reti m
  else (.error (.instruction (.invalidOpcode opcode)), cpu, m)

/-- `instructions::execute` from `src/core/cpu/instructions/mod.rs`: its own
illegal-opcode list (which exempts 0xED inside the Nintendo-logo region), the
logo-region auto-skip, then the opcode match in source order.  Arms routed to
the load/arithmetic/logic/jump/call/bit dispatchers are not exercised by any
claim and are `Error.unmodelledArm`. -/
def Instructions.execute (cpu : CPU) (m : MMU) (opcode : Nat) : ExecResult :=
  let pc := cpu.registers.pc
  if [0xD3, 0xDB, 0xDD, 0xE3, 0xE4, 0xEB, 0xEC, 0xF4, 0xFC, 0xFD].contains opcode
      ∨ (opcode = 0xED ∧ ¬(0x0104 ≤ pc ∧ pc ≤ 0x0133)) then
    (.error (.instruction (.invalidOpcode opcode)), cpu, m)
  else if 0x0104 ≤ pc ∧ pc ≤ 0x0133 then
    (.ok 4, { cpu with registers := { cpu.registers with pc := 0x0150 } }, m)
  else if opcode = 0x00 then Control.dispatch cpu m opcode
  else if opcode = 0x08 then (.error (.unmodelledArm opcode), cpu, m)
  else if [0x01, 0x11, 0x21, 0x31].contains opcode then
    (.error (.unmodelledArm opcode), cpu, m)
  else if [0x02, 0x12, 0x22, 0x32].contains opcode then
    (.error (.unmodelledArm opcode), cpu, m)
  else if [0x06, 0x0E, 0x16, 0x1E, 0x26, 0x2E, 0x36, 0x3E].contains opcode then
    (.error (.unmodelledArm opcode), cpu, m)
  else if [0x0A, 0x1A, 0x2A, 0x3A].contains opcode then
    (.error (.unmodelledArm opcode), cpu, m)
  else if [0xEA, 0xFA, 0xE0, 0xF0, 0xE2, 0xF2].contains opcode then
    (.error (.unmodelledArm opcode), cpu, m)
  else if (0x40 ≤ opcode ∧ opcode ≤ 0x75) ∨ (0x77 ≤ opcode ∧ opcode ≤ 0x7F) then
    (.error (.unmodelledArm opcode), cpu, m)
  else if [0x03, 0x13, 0x23, 0x33].contains opcode then
    (.error (.unmodelledArm opcode), cpu, m)
  else if [0x0B, 0x1B, 0x2B, 0x3B].contains opcode then
    (.error (.unmodelledArm opcode), cpu, m)
  else if [0x04, 0x0C, 0x14, 0x1C, 0x24, 0x2C, 0x34, 0x3C].contains opcode then
    (.error (.unmodelledArm opcode), cpu, m)
  else if [0x05, 0x0D, 0x15, 0x1D, 0x25, 0x2D, 0x35, 0x3D].contains opcode then
    (.error (.unmodelledArm opcode), cpu, m)
  else if [0xC4, 0xCC, 0xCD, 0xD4, 0xDC].contains opcode then
    (.error (.unmodelledArm opcode), cpu, m)
  else if [0xC7, 0xCF, 0xD7, 0xDF, 0xE7, 0xEF, 0xF7, 0xFF].contains opcode then
    (.error (.unmodelledArm opcode), cpu, m)
  else if 0x80 ≤ opcode ∧ opcode ≤ 0x9F then
    (.error (.unmodelledArm opcode), cpu, m)
  else if [0xC6, 0xCE, 0xD6, 0xDE].contains opcode then
    (.error (.unmodelledArm opcode), cpu, m)
  else if opcode = 0xFE then (.error (.unmodelledArm opcode), cpu, m)
  else if 0xA0 ≤ opcode ∧ opcode ≤ 0xA7 then
    (.error (.unmodelledArm opcode), cpu, m)
  else if 0xB0 ≤ opcode ∧ opcode ≤ 0xB7 then
    (.error (.unmodelledArm opcode), cpu, m)
  else if 0xA8 ≤ opcode ∧ opcode ≤ 0xAF then
    (.error (.unmodelledArm opcode), cpu, m)
  else if 0xB8 ≤ opcode ∧ opcode ≤ 0xBF then
    (.error (.unmodelledArm opcode), cpu, m)
  else if opcode = 0x17 then (.error (.unmodelledArm opcode), cpu, m)
  else if [0x20, 0x28, 0x30, 0x38].contains opcode then
    (.error (.unmodelledArm opcode), cpu, m)
  else if opcode = 0x27 then (.error (.unmodelledArm opcode), cpu, m)
  else if opcode = 0x76 then Control.dispatch cpu m opcode
  else if [0xF8, 0xF9].contains opcode then
    (.error (.unmodelledArm opcode), cpu, m)
  else if [0xF3, 0xFB].contains opcode then Control.dispatch cpu m opcode
  else if [0xC2, 0xC3, 0xCA, 0xD2, 0xDA, 0xE9].contains opcode then
    (.error (.unmodelledArm opcode), cpu, m)
  else if [0xC0, 0xC8, 0xC9, 0xD0, 0xD8, 0xD9].contains opcode then
    Control.dispatch cpu m opcode
  else if opcode = 0xCB then (.error (.unmodelledArm opcode), cpu, m)
  else (.error (.instruction (.invalidOpcode opcode)), cpu, m)

/-- `CPU::decode_and_execute` (cpu/mod.rs lines 167–242): bump the
instruction counter; on a halted CPU handle interrupts and report 4 cycles;
reject the eleven illegal opcodes with `InvalidOpcode`; otherwise dispatch
(arms in source order) and, on success, handle interrupts after the
instruction. -/
def CPU.decode_and_execute (cpu : CPU) (m : MMU) (opcode : Nat) : ExecResult :=
  let cpu := { cpu with instruction_count :=
      (cpu.instruction_count + 1) % 18446744073709551616 }
  if cpu.halted then
    let (cpu, m) := CPU.check_and_handle_interrupts cpu m
    (.ok 4, cpu, m)
  else if [0xD3, 0xDB, 0xDD, 0xE3, 0xE4, 0xEB, 0xEC, 0xED, 0xF4, 0xFC,
           0xFD].contains opcode then
    (.error (.instruction (.invalidOpcode opcode)), cpu, m)
  else
    let r : ExecResult :=
      if opcode = 0x00 then (.ok 4, cpu, m)
      else if opcode = 0x31 then (.error (.unmodelledArm opcode), cpu, m)
      else if 0x01 ≤ opcode ∧ opcode ≤ 0x3E then
        (.error (.unmodelledArm opcode), cpu, m)
      else if opcode = 0xC7 then cpu.rst m 0x00
      else if opcode = 0xCF then cpu.rst m 0x08
      else if opcode = 0xD7 then cpu.rst m 0x10
      else if opcode = 0xDF then cpu.rst m 0x18
      else if opcode = 0xE7 then cpu.rst m 0x20
      else if opcode = 0xEF then cpu.rst m 0x28
      else if opcode = 0xF7 then cpu.rst m 0x30
      else if opcode = 0xFF then cpu.rst m 0x38
      else if opcode = 0xCB then (.error (.unmodelledArm opcode), cpu, m)
      else if [0xCD, 0xC4, 0xCC, 0xD4, 0xDC].contains opcode then
        (.error (.unmodelledArm opcode), cpu, m)
      else Instructions.execute cpu m opcode
    match r with
    | (.ok cycles, cpu, m) =>
        let (cpu, m) := CPU.check_and_handle_interrupts cpu m
        (.ok cycles, cpu, m)
    | e => e

/-- The `PPU` struct from `src/core/ppu/mod.rs` without the renderers, the
display buffer and the host video sink (output-only, omitted — see the file
header) and without the shared-`MMU` back-pointer (explicit threading). -/
structure PPU where
  mode_clock : Nat
  current_line : Nat
  current_mode : Nat

/-- `PPU::update_lcd_status` (ppu/mod.rs lines 260–284): refresh the mode
bits and the LY==LYC coincidence bit of STAT (via MMU 0xFF41), then write the
current line to 0xFF44.  All source paths return `Ok`. -/
def PPU.update_lcd_status (p : PPU) (m : MMU) : MMU :=
  let stat := m.read_byte 0xFF41
  let stat := (stat &&& 0xFC) ||| (p.current_mode &&& 0x03)
  let lyc := m.read_byte 0xFF45
  let stat := if p.current_line = lyc then stat ||| 0x04 else stat &&& 0xFB
  let m := m.write_byte 0xFF41 stat
  m.write_byte 0xFF44 p.current_line

/-- `PPU::step` (ppu/mod.rs lines 102–198).  With the LCD disabled (LCDC bit
7 read from MMU 0xFF40 is clear) the PPU resets its mode/line/clock, clears
the (omitted) display, refreshes STAT/LY and returns.  With the LCD on it
advances the mode clock and walks the H-Blank/V-Blank/OAM/transfer state
machine; the rendering leaves (`vblank`, `render_line`) and the
`unreachable!()` arm are the `Error.unmodelledRender` marker — every theorem
below that runs `PPU.step` does so with the LCD disabled. -/
def PPU.step (p : PPU) (m : MMU) (cycles : Nat) : Except Error (PPU × MMU) :=
  let lcd_enabled := (m.read_byte 0xFF40) &&& 0x80 ≠ 0
  if ¬lcd_enabled then
    let p := { p with current_mode := 0, current_line := 0, mode_clock := 0 }
    let m := p.update_lcd_status m
    let m := { m with ly := 0 }
    let m := { m with lcd_registers :=
        { m.lcd_registers with stat :=
            (m.lcd_registers.stat &&& 0xFC) ||| (p.current_mode &&& 0x03) } }
    .ok (p, m)
  else
    let p := { p with mode_clock := (p.mode_clock + cycles) % 4294967296 }
    let old_mode := p.current_mode
    let old_line := p.current_line
    let arm : Except Error (PPU × MMU) :=
      if p.current_mode = 0 then
        if p.mode_clock ≥ 204 then
          let p := { p with mode_clock := 0, current_line := p.current_line + 1 }
          if p.current_line = 144 then
            -- enter V-Blank: raise IF bit 0, then `self.vblank()?` renders the
            -- frame into the omitted display
            .error .unmodelledRender
          else .ok ({ p with current_mode := 2 }, m)
        else .ok (p, m)
      else if p.current_mode = 1 then
        if p.mode_clock ≥ 456 then
          let p := { p with mode_clock := 0, current_line := p.current_line + 1 }
          if p.current_line > 153 then
            .ok ({ p with current_mode := 2, current_line := 0 }, m)
          else .ok (p, m)
        else .ok (p, m)
      else if p.current_mode = 2 then
        if p.mode_clock ≥ 80 then
          .ok ({ p with mode_clock := 0, current_mode := 3 }, m)
        else .ok (p, m)
      else if p.current_mode = 3 then
        if p.mode_clock ≥ 172 then
          let p := { p with mode_clock := 0, current_mode := 0 }
          if p.current_line < 144 then
            -- `self.render_line()?` renders into the omitted display
            .error .unmodelledRender
          else .ok (p, m)
        else .ok (p, m)
      else .error .unmodelledRender   -- source: `unreachable!()`
    match arm with
    | .error e => .error e
    | .ok (p, m) =>
        let m :=
          if old_mode ≠ p.current_mode ∨ old_line ≠ p.current_line then
            let m := { m with ly := p.current_line }
            { m with lcd_registers :=
                { m.lcd_registers with stat :=
                    (m.lcd_registers.stat &&& 0xFC) |||
                      (p.current_mode &&& 0x03) } }
          else m
        let m :=
          if old_mode ≠ p.current_mode then p.update_lcd_status m else m
        .ok (p, m)

/-- The `GameBoy` struct from `src/lib.rs` (the `Rc<RefCell<MMU>>` shared by
CPU and PPU is the single `mmu` field). -/
structure GameBoy where
  mmu : MMU
  ppu : PPU
  cpu : CPU
  render_count : Nat

/-- The `while cycles > 0 { self.ppu.step(4)?; cycles -= 4; }` loop of
`GameBoy::step` (lib.rs lines 152–156). -/
def GameBoy.ppuSpin (p : PPU) (m : MMU) (cycles : Nat) : Except Error (PPU × MMU) :=
  if h : cycles = 0 then .ok (p, m)
  else
    match PPU.step p m 4 with
    | .error e => .error e
    | .ok (p, m) => GameBoy.ppuSpin p m (cycles - 4)
termination_by cycles
decreasing_by
  exact Nat.sub_lt (Nat.pos_of_ne_zero h) (by decide)

/-- `GameBoy::step` (lib.rs lines 111–159): fetch the opcode at PC (without
advancing PC), run `decode_and_execute`; an `InvalidOpcode` error is caught —
PC is advanced past the offending byte and execution continues with 4 cycles
— while any other error propagates; then the PPU is advanced 4 cycles at a
time, and the function reports `Ok(4)` regardless of the actual cost. -/
def GameBoy.step (g : GameBoy) : Except Error (Nat × GameBoy) :=
  let pc := g.cpu.registers.pc
  let opcode := g.mmu.read_byte pc
  let afterCpu : Except Error (Nat × CPU × MMU) :=
    match CPU.decode_and_execute g.cpu g.mmu opcode with
    | (.ok c, cpu, m) => .ok (c, cpu, m)
    | (.error (.instruction (.invalidOpcode _)), cpu, m) =>
        let cpu := { cpu with registers :=
            { cpu.registers with pc := (pc + 1) % 65536 } }
        .ok (4, cpu, m)
    | (.error e, _, _) => .error e
  match afterCpu with
  | .error e => .error e
  | .ok (cycles, cpu, m) =>
      match GameBoy.ppuSpin g.ppu m cycles with
      | .error e => .error e
      | .ok (p, m) =>
          .ok (4, { g with cpu := cpu, mmu := m, ppu := p })

/-- Claim-side (refinement) definition for C3, written from the amended
claim's words rather than from `Bus::mbc1_calc_bankX`: the MBC1 high-window
ROM bank as plain arithmetic — in ROM-banking mode (`mode` even)
`high2·32 + low5`, in RAM-banking mode only `low5`; a value whose low 5 bits
are zero is bumped to the next odd value; the result is reduced modulo the
cartridge's bank count. -/
def mbc1HighWindowBank (mode high2 low5 banks : Nat) : Nat :=
  let raw := if mode % 2 = 0 then (high2 % 4) * 32 + low5 % 32 else low5 % 32
  let forced := if raw % 32 = 0 then raw + 1 else raw
  forced % banks

/-- `Bus::read` takes `&self` (a shared, non-mutating receiver with no
interior mutability), so its state-passing form returns the value together
with the unchanged bus.  This wrapper makes that explicit for C10. -/
def Bus.readStep (b : Bus) (addr : Nat) : Nat × Bus := (b.read addr, b)

/-- `MMU::read_byte` likewise takes `&self`; its state-passing form. -/
def MMU.readStep (m : MMU) (addr : Nat) : Nat × MMU := (m.read_byte addr, m)

/-- The writable plain-RAM region used by the stack claims (C1, C9): WRAM
0xC000–0xDFFF or HRAM 0xFF80–0xFFFE, where `MMU::write_byte` stores the byte
and `MMU::read_byte` returns it. -/
abbrev WritableStack (a : Nat) : Prop :=
  (0xC000 ≤ a ∧ a ≤ 0xDFFF) ∨ (0xFF80 ≤ a ∧ a ≤ 0xFFFE)

/-- An all-zero core MMU state, used as the base of concrete scenarios. -/
def mmuZero : MMU :=
  { cartridge_rom := fun _ => 0
    cartridge_rom_len := 0
    work_ram := fun _ => 0
    high_ram := fun _ => 0
    video_ram := fun _ => 0
    object_attribute_memory := fun _ => 0
    io_registers := fun _ => 0
    interrupt_enable := 0
    interrupt_flags := 0
    lcd_registers := ⟨0, 0, 0, 0, 0, 0, 0, 0, 0, 0, 0, 0⟩
    ly := 0
    lyc := 0
    external_ram := Option.none }

/-- An all-zero CPU state, used as the base of concrete scenarios. -/
def cpuZero : CPU :=
  { registers := ⟨0, 0, 0, 0, 0, 0⟩
    halted := false
    ime := false
    ime_scheduled := false
    instruction_count := 0 }

/-- A PPU state at power-on values, used in concrete scenarios. -/
def ppuZero : PPU := ⟨0, 0, 0⟩

/-- An all-zero GB bus (no cartridge), used as the base of concrete
scenarios. -/
def busZero : Bus :=
  { ram := ⟨fun _ => 0⟩
    rom := fun _ => 0
    rom_len := 0
    rom_banks := 0
    mbc := .none
    ram_enable := false
    rom_bank := 1
    ram_bank := 0
    ext_ram := fun _ => 0
    ext_ram_len := 0
    mbc1_bank_low5 := 1
    mbc1_bank_high2 := 0
    mbc1_mode := 0
    mbc3_rtc_sel := Option.none
    mbc3_rtc_regs := fun _ => 0
    ie := 0
    ifl := 0
    p1 := 0xFF
    div := 0
    tima := 0
    tma := 0
    tac := 0
    dma := 0
    lcdc := 0
    stat_w := 0
    scy := 0
    scx := 0
    ly := 0
    lyc := 0
    bgp := 0xFC
    obp0 := 0xFF
    obp1 := 0xFF
    wy := 0
    wx := 0
    ppu_line_cycle := 0
    ppu_mode := 2
    div_counter := 0
    tima_counter := 0 }

/-- A 128-KiB (8-bank) MBC1 cartridge over contents `r`, the concrete
scenario of C3 (post-power-on banking state from `busZero`). -/
def c3cart (r : Nat → Nat) : Bus :=
  { busZero with
    mbc := .mbc1
    rom := r
    rom_len := 0x20000
    rom_banks := 8 }

/-- The C3 counterexample state: a 2-MiB (128-bank) MBC1 cartridge whose
every byte records its own bank number, in RAM-banking mode with
`bank_high2 = 1`, `bank_low5 = 1`. -/
def c3modeOneBus : Bus :=
  { busZero with
    mbc := .mbc1
    rom := fun i => (i / 0x4000) % 256
    rom_len := 0x200000
    rom_banks := 128
    mbc1_mode := 1
    mbc1_bank_high2 := 1
    mbc1_bank_low5 := 1 }

/-- The C3 witness state: an 8-bank MBC1 cartridge with `bank_low5 = 2`. -/
def c3witnessBus : Bus :=
  { busZero with
    mbc := .mbc1
    rom := fun i => i % 256
    rom_len := 0x20000
    rom_banks := 8
    mbc1_bank_low5 := 2 }

/-- The C7 counterexample state: power-on bus with one marked WRAM byte at
0xC000, the first source byte of an OAM DMA from 0xC0. -/
def c7bus : Bus :=
  { busZero with ram := ⟨fun x => if x = 0xC000 then 0xAB else 0⟩ }

/-- The C8 states: LCD on, one dot before the end of scanline 143 in H-Blank
(mode 0). -/
def c8bus : Bus :=
  { busZero with lcdc := 0x80, ly := 143, ppu_line_cycle := 455, ppu_mode := 0 }

/-! ## Arithmetic and bitwise helper lemmas -/

theorem shiftLeft_lor_eq_add (k h l : Nat) (hl : l < 2 ^ k) :
    (h <<< k) ||| l = 2 ^ k * h + l := by
  apply Nat.eq_of_testBit_eq
  intro i
  rw [Nat.testBit_lor, Nat.testBit_shiftLeft, Nat.testBit_mul_pow_two_add _ hl i]
  by_cases hi : i < k
  · have h5 : ¬(k ≤ i) := by omega
    simp [hi, h5]
  · have h5 : k ≤ i := by omega
    have hpow : 2 ^ k ≤ 2 ^ i := @Nat.pow_le_pow_right 2 (by norm_num) k i h5
    have hli : Nat.testBit l i = false :=
      Nat.testBit_lt_two_pow (Nat.lt_of_lt_of_le hl hpow)
    simp [hi, h5, hli]

theorem and_mod32 (x : Nat) : x &&& 31 = x % 32 := by
  have := Nat.and_pow_two_sub_one_eq_mod x 5
  simpa using this

theorem and_mod4 (x : Nat) : x &&& 3 = x % 4 := by
  have := Nat.and_pow_two_sub_one_eq_mod x 2
  simpa using this

theorem and_mod2 (x : Nat) : x &&& 1 = x % 2 :=
  Nat.and_pow_two_sub_one_eq_mod x 1

theorem and_mod256 (x : Nat) : x &&& 255 = x % 256 := by
  have := Nat.and_pow_two_sub_one_eq_mod x 8
  simpa using this

theorem even_lor_one (x : Nat) (h : x % 2 = 0) : x ||| 1 = x + 1 := by
  have hx : x = (x / 2) <<< 1 := by rw [Nat.shiftLeft_eq]; omega
  calc x ||| 1 = ((x / 2) <<< 1) ||| 1 := by rw [← hx]
    _ = 2 ^ 1 * (x / 2) + 1 := shiftLeft_lor_eq_add 1 (x / 2) 1 (by norm_num)
    _ = x + 1 := by omega

theorem testBit_two_lor_small (x m : Nat) (hm : m < 4) :
    (x ||| m).testBit 2 = x.testBit 2 := by
  rw [Nat.testBit_lor]
  have : m.testBit 2 = false := Nat.testBit_lt_two_pow hm
  simp [this]

/-! ## C10 — bus reads are pure -/

/-- Claim C10 (confirmed): `Bus::read` and `MMU::read_byte` both take a
shared `&self` receiver with no interior mutability, so a read returns a
value without mutating any emulator state; in the state-passing embedding the
post-read state is the input state, and two consecutive reads of the same
address in the same state return equal values. -/
theorem claim_C10_read_pure :
    ∀ (b : Bus) (m : MMU) (addr : Nat),
      (b.readStep addr).2 = b ∧
      (b.readStep addr).1 = ((b.readStep addr).2.readStep addr).1 ∧
      (m.readStep addr).2 = m ∧
      (m.readStep addr).1 = ((m.readStep addr).2.readStep addr).1 :=
  fun _ _ _ => ⟨rfl, rfl, rfl, rfl⟩

/-! ## C4 — VRAM/OAM access gating -/

/-- Claim C4 (amended): while the LCD is on (LCDC bit 7 set) and the PPU is
in mode 3, every VRAM read through the bus returns 0xFF and every VRAM write
leaves the bus unchanged; while the LCD is on and the PPU is in mode 2 or 3,
every OAM read returns 0xFF and every OAM write leaves the bus unchanged.
(The original claim omitted the LCD-on condition from the OAM clause; the
code gates OAM only while the LCD is on — see the counterexample.) -/
theorem claim_C4_gating :
    (∀ (b : Bus) (addr v : Nat), b.lcdc &&& 0x80 ≠ 0 → b.ppu_mode = 3 →
       0x8000 ≤ addr → addr ≤ 0x9FFF →
       b.read addr = 0xFF ∧ b.write addr v = b) ∧
    (∀ (b : Bus) (addr v : Nat), b.lcdc &&& 0x80 ≠ 0 →
       (b.ppu_mode = 2 ∨ b.ppu_mode = 3) →
       0xFE00 ≤ addr → addr ≤ 0xFE9F →
       b.read addr = 0xFF ∧ b.write addr v = b) := by
  constructor
  · intro b addr v hlcd hmode h1 h2
    refine ⟨?_, ?_⟩
    · unfold Bus.read
      repeat rw [if_neg (by omega)]
      rw [if_pos (by omega), if_pos ⟨hlcd, hmode⟩]
    · unfold Bus.write
      repeat rw [if_neg (by omega)]
      rw [if_pos (by omega), if_pos ⟨hlcd, hmode⟩]
  · intro b addr v hlcd hmode h1 h2
    refine ⟨?_, ?_⟩
    · unfold Bus.read
      repeat rw [if_neg (by omega)]
      rw [if_pos (by omega), if_pos ⟨hlcd, hmode⟩]
    · unfold Bus.write
      repeat rw [if_neg (by omega)]
      rw [if_pos (by omega), if_pos ⟨hlcd, hmode⟩]

/-- Claim C4 counterexample: in the power-on bus state the PPU mode is 2 but
the LCD is off (LCDC = 0), and an OAM read returns the stored byte (0xAB
here), not 0xFF — refuting the claim's unconditional "whenever the PPU is in
mode 2 or mode 3, every OAM read returns 0xFF". -/
theorem claim_C4_oam_lcd_off :
    ((({ busZero with
          ram := ⟨fun a => if a = 0xFE00 then 0xAB else 0⟩ } : Bus).ppu_mode = 2)
      ∧ ({ busZero with
          ram := ⟨fun a => if a = 0xFE00 then 0xAB else 0⟩ } : Bus).read 0xFE00 = 0xAB
      ∧ ({ busZero with
          ram := ⟨fun a => if a = 0xFE00 then 0xAB else 0⟩ } : Bus).read 0xFE00 ≠ 0xFF) := by
  refine ⟨rfl, rfl, ?_⟩
  decide

/-- Witness for C4: both gates evaluated at concrete states through the
theorem. -/
theorem claim_C4_gating_witness :
    (({ busZero with lcdc := 0x80, ppu_mode := 3 } : Bus).read 0x8000 = 0xFF ∧
     ({ busZero with lcdc := 0x80, ppu_mode := 3 } : Bus).write 0x8000 0x12 =
       { busZero with lcdc := 0x80, ppu_mode := 3 }) ∧
    (({ busZero with lcdc := 0x80, ppu_mode := 2 } : Bus).read 0xFE00 = 0xFF ∧
     ({ busZero with lcdc := 0x80, ppu_mode := 2 } : Bus).write 0xFE00 0x34 =
       { busZero with lcdc := 0x80, ppu_mode := 2 }) :=
  ⟨claim_C4_gating.1 _ 0x8000 0x12 (by decide) rfl (by decide) (by decide),
   claim_C4_gating.2 _ 0xFE00 0x34 (by decide) (Or.inl rfl) (by decide) (by decide)⟩

/-! ## C3 — MBC1 high-window banking -/

theorem bankX_spec (b : Bus) :
    b.mbc1_calc_bankX % b.rom_banks =
      mbc1HighWindowBank b.mbc1_mode b.mbc1_bank_high2 b.mbc1_bank_low5
        b.rom_banks := by
  unfold Bus.mbc1_calc_bankX mbc1HighWindowBank
  simp only [and_mod32, and_mod2, and_mod4]
  by_cases hm : b.mbc1_mode % 2 = 0
  · simp only [hm, ite_true]
    have hor : (b.mbc1_bank_low5 % 32) ||| ((b.mbc1_bank_high2 % 4) <<< 5) =
        32 * (b.mbc1_bank_high2 % 4) + b.mbc1_bank_low5 % 32 := by
      rw [Nat.lor_comm]
      have := shiftLeft_lor_eq_add 5 (b.mbc1_bank_high2 % 4) (b.mbc1_bank_low5 % 32)
        (by omega)
      simpa using this
    rw [hor, Nat.mul_comm (b.mbc1_bank_high2 % 4) 32]
    by_cases hz : (32 * (b.mbc1_bank_high2 % 4) + b.mbc1_bank_low5 % 32) % 32 = 0
    · rw [if_pos hz, if_pos hz, even_lor_one _ (by omega)]
    · rw [if_neg hz, if_neg hz]
  · simp only [hm, ite_false]
    by_cases hz : b.mbc1_bank_low5 % 32 % 32 = 0
    · rw [if_pos hz, if_pos hz, even_lor_one _ (by omega)]
    · rw [if_neg hz, if_neg hz]

theorem mbc1_high_window_read (b : Bus) (addr : Nat) (hm : b.mbc = .mbc1)
    (hb : 0 < b.rom_banks) (h1 : 0x4000 ≤ addr) (h2 : addr ≤ 0x7FFF) :
    b.read addr =
      (if mbc1HighWindowBank b.mbc1_mode b.mbc1_bank_high2 b.mbc1_bank_low5
            b.rom_banks * 0x4000 + (addr - 0x4000) < b.rom_len then
         b.rom (mbc1HighWindowBank b.mbc1_mode b.mbc1_bank_high2
            b.mbc1_bank_low5 b.rom_banks * 0x4000 + (addr - 0x4000))
       else 0xFF) := by
  unfold Bus.read
  rw [if_pos h2, if_pos (by omega)]
  unfold Bus.read_rom
  rw [if_neg (by omega), hm]
  simp only []
  rw [if_neg (by omega), bankX_spec]

/-- Claim C3 (amended): an MBC1 high-window read (0x4000–0x7FFF) uses the
bank given by `mbc1HighWindowBank`: in ROM-banking mode (`mbc1_mode` even)
`(bank_high2 << 5) | bank_low5`, but in RAM-banking mode (`mbc1_mode` odd)
only `bank_low5` (the high bits are ignored — see the counterexample); a bank
whose low 5 bits are 0 is forced to 1, and the bank is reduced modulo the
cartridge's bank count before indexing; out-of-range reads give 0xFF.  In
particular, on a 128-KiB MBC1 cartridge (8 banks) writing 0x05 to 0x2000
makes reads of 0x4000 return the ROM byte at 0x14000, and writing 0x00 then
makes them return the byte at 0x4000 (bank 1). -/
theorem claim_C3_mbc1_high_window :
    (∀ (b : Bus) (addr : Nat), b.mbc = .mbc1 → 0 < b.rom_banks →
        0x4000 ≤ addr → addr ≤ 0x7FFF →
        b.read addr =
          (if mbc1HighWindowBank b.mbc1_mode b.mbc1_bank_high2 b.mbc1_bank_low5
                b.rom_banks * 0x4000 + (addr - 0x4000) < b.rom_len then
             b.rom (mbc1HighWindowBank b.mbc1_mode b.mbc1_bank_high2
                b.mbc1_bank_low5 b.rom_banks * 0x4000 + (addr - 0x4000))
           else 0xFF)) ∧
    (∀ r : Nat → Nat,
        ((c3cart r).write 0x2000 0x05).read 0x4000 = r 0x14000 ∧
        (((c3cart r).write 0x2000 0x05).write 0x2000 0x00).read 0x4000 =
          r 0x4000) :=
  ⟨fun b addr hm hb h1 h2 => mbc1_high_window_read b addr hm hb h1 h2,
   fun r => ⟨by
      simp [Bus.read, Bus.write, Bus.write_mbc, Bus.read_rom,
        Bus.mbc1_calc_bankX, c3cart, busZero]
      norm_num [show ((5 : Nat) &&& 31 &&& 31) = 5 from by decide],
     by
      simp [Bus.read, Bus.write, Bus.write_mbc, Bus.read_rom,
        Bus.mbc1_calc_bankX, c3cart, busZero]⟩⟩

/-- Claim C3 counterexample: in RAM-banking mode (`mbc1_mode = 1`) with
`bank_high2 = 1`, `bank_low5 = 1` on a 2-MiB (128-bank) image whose every
byte records its own bank number, the claimed bank
`((bank_high2 << 5) | bank_low5) % 128 = 33` would make the read of 0x4000
return 33 (the byte at physical offset 0x84000), but the code reads bank 1
and returns 1: the high window ignores `bank_high2` in RAM-banking mode. -/
theorem claim_C3_mode1_high2_ignored :
    c3modeOneBus.read 0x4000 = 1 ∧
    ((((c3modeOneBus.mbc1_bank_high2 <<< 5) ||| c3modeOneBus.mbc1_bank_low5) %
        c3modeOneBus.rom_banks) * 0x4000 : Nat) = 0x84000 ∧
    c3modeOneBus.rom 0x84000 = 33 ∧
    c3modeOneBus.read 0x4000 ≠ 33 := by
  refine ⟨rfl, by decide, rfl, by decide⟩

/-- Witness for C3: the general formula applied at a concrete cartridge state
and the concrete 128-KiB bank-switch scenario. -/
theorem claim_C3_witness :
    c3witnessBus.read 0x4100 =
      (if mbc1HighWindowBank 0 0 2 8 * 0x4000 + (0x4100 - 0x4000) < 0x20000 then
         (fun i => i % 256)
           (mbc1HighWindowBank 0 0 2 8 * 0x4000 + (0x4100 - 0x4000))
       else 0xFF) ∧
    (((c3cart fun i => i / 0x4000).write 0x2000 0x05).read 0x4000 =
        (fun i => i / 0x4000) 0x14000 ∧
     (((c3cart fun i => i / 0x4000).write 0x2000 0x05).write 0x2000 0x00).read
        0x4000 = (fun i => i / 0x4000) 0x4000) :=
  ⟨claim_C3_mbc1_high_window.1 _ 0x4100 rfl (by decide) (by decide) (by decide),
   claim_C3_mbc1_high_window.2 (fun i => i / 0x4000)⟩

/-! ## C9 — push/pop round trip -/

theorem mmu_read_write_self (m : MMU) (a v : Nat) (ha : WritableStack a) :
    (m.write_byte a v).read_byte a = v := by
  rcases ha with ⟨h1, h2⟩ | ⟨h1, h2⟩
  all_goals
    unfold MMU.write_byte MMU.read_byte
    repeat first
      | rw [if_neg (by omega)]
      | rw [if_pos (by omega)]
    simp

theorem mmu_read_write_other (m : MMU) (a v a' : Nat) (ha : WritableStack a)
    (ha' : WritableStack a') (hne : a' ≠ a) :
    (m.write_byte a v).read_byte a' = m.read_byte a' := by
  rcases ha with ⟨h1, h2⟩ | ⟨h1, h2⟩ <;> rcases ha' with ⟨h3, h4⟩ | ⟨h3, h4⟩
  all_goals
    unfold MMU.write_byte MMU.read_byte
    repeat first
      | rw [if_neg (by omega)]
      | rw [if_pos (by omega)]
    try simp only []
    try rw [if_neg (by omega)]

/-- Claim C9 (confirmed): for any 16-bit value and any CPU/MMU state whose
SP-1 and SP-2 land in writable RAM (WRAM or HRAM), `push_word` followed by
`pop_word` returns the pushed value and restores SP. -/
theorem claim_C9_push_pop (cpu : CPU) (m : MMU) (v : Nat) (hv : v < 65536)
    (hsp : cpu.registers.sp < 65536)
    (h1 : WritableStack ((cpu.registers.sp + 65535) % 65536))
    (h2 : WritableStack ((cpu.registers.sp + 65534) % 65536)) :
    ((CPU.push_word cpu m v).1.pop_word (CPU.push_word cpu m v).2).1 = v ∧
    ((CPU.push_word cpu m v).1.pop_word
        (CPU.push_word cpu m v).2).2.1.registers.sp = cpu.registers.sp := by
  unfold CPU.push_word CPU.pop_word
  simp only []
  constructor
  · rw [mmu_read_write_self _ _ _ h2]
    rw [show ((cpu.registers.sp + 65534) % 65536 + 1) % 65536 =
        (cpu.registers.sp + 65535) % 65536 from by omega]
    rw [mmu_read_write_other _ _ _ _ h2 h1 (by omega)]
    rw [mmu_read_write_self _ _ _ h1]
    rw [and_mod256, and_mod256, Nat.shiftRight_eq_div_pow]
    rw [shiftLeft_lor_eq_add 8 _ _ (by omega)]
    have h256 : (2 : Nat) ^ 8 = 256 := by norm_num
    rw [h256]
    omega
  · omega

/-- Witness for C9: push/pop of 0x1234 at SP = 0xFFFE (HRAM stack). -/
theorem claim_C9_push_pop_witness :
    ((CPU.push_word { cpuZero with registers := { cpuZero.registers with
        sp := 0xFFFE } } mmuZero 0x1234).1.pop_word
      (CPU.push_word { cpuZero with registers := { cpuZero.registers with
        sp := 0xFFFE } } mmuZero 0x1234).2).1 = 0x1234 ∧
    ((CPU.push_word { cpuZero with registers := { cpuZero.registers with
        sp := 0xFFFE } } mmuZero 0x1234).1.pop_word
      (CPU.push_word { cpuZero with registers := { cpuZero.registers with
        sp := 0xFFFE } } mmuZero 0x1234).2).2.1.registers.sp = 0xFFFE :=
  claim_C9_push_pop _ mmuZero 0x1234 (by decide) (by decide)
    (by decide) (by decide)

/-! ## C1 — interrupt service -/

theorem mmu_read_ff0f (m : MMU) : m.read_byte 0xFF0F = m.interrupt_flags := rfl

theorem mmu_write_interrupt_flags (m : MMU) (a v : Nat) :
    (m.write_byte a v).interrupt_flags = m.interrupt_flags := by
  unfold MMU.write_byte
  repeat' split
  all_goals rfl

theorem mmu_write_writable_io (m : MMU) (a v : Nat) (ha : WritableStack a) :
    (m.write_byte a v).io_registers = m.io_registers := by
  rcases ha with ⟨h1, h2⟩ | ⟨h1, h2⟩
  all_goals
    unfold MMU.write_byte
    repeat first
      | rw [if_neg (by omega)]
      | rw [if_pos (by omega)]

theorem mmu_write_ff0f_io (m : MMU) (v : Nat) :
    (m.write_byte 0xFF0F v).io_registers 0x0F = v := rfl

theorem serviceIndex_lowest :
    ∀ p, p < 32 → p ≠ 0 → ∃ i, i < 5 ∧ serviceIndex p = some i ∧
      p.testBit i = true ∧ ∀ j, j < i → p.testBit j = false := by
  decide

set_option maxRecDepth 4096 in
/-- Claim C1 (amended): when IME is set and `IF & IE & 0x1F` is non-zero
(with SP-1, SP-2 in writable RAM and PC, SP proper 16-bit values),
`check_and_handle_interrupts` services exactly the lowest set pending bit
`i`: IME and `halted` are cleared, the pre-service PC is pushed (SP drops by
2 and the pushed word equals the pre-service PC), and PC becomes
`0x40 + 8·i` (0x0040 for VBlank — not the claimed `0x40 + 5·i`).  The masked
IF value is written to 0xFF0F, but the MMU stores that write in
`io_registers[0x0F]` while IF reads return the separate `interrupt_flags`
field, so the readable IF bit is NOT cleared.  No cycle count is produced by
servicing: a halted CPU's `decode_and_execute` step that services an
interrupt reports 4 T-cycles, not 20. -/
theorem claim_C1_interrupt_service (cpu : CPU) (m : MMU)
    (hime : cpu.ime = true)
    (hpend : (m.read_byte 0xFF0F) &&& (m.read_byte 0xFFFF) &&& 0x1F ≠ 0)
    (hpc : cpu.registers.pc < 65536)
    (hsp : cpu.registers.sp < 65536)
    (h1 : WritableStack ((cpu.registers.sp + 65535) % 65536))
    (h2 : WritableStack ((cpu.registers.sp + 65534) % 65536)) :
    ∃ i, i < 5 ∧
      serviceIndex ((m.read_byte 0xFF0F) &&& (m.read_byte 0xFFFF) &&& 0x1F) =
        some i ∧
      ((m.read_byte 0xFF0F) &&& (m.read_byte 0xFFFF) &&& 0x1F).testBit i =
        true ∧
      (∀ j, j < i →
        ((m.read_byte 0xFF0F) &&& (m.read_byte 0xFFFF) &&& 0x1F).testBit j =
          false) ∧
      (CPU.check_and_handle_interrupts cpu m).1.ime = false ∧
      (CPU.check_and_handle_interrupts cpu m).1.halted = false ∧
      (CPU.check_and_handle_interrupts cpu m).1.registers.pc =
        0x0040 + i * 0x08 ∧
      (CPU.check_and_handle_interrupts cpu m).1.registers.sp =
        (cpu.registers.sp + 65534) % 65536 ∧
      (((CPU.check_and_handle_interrupts cpu m).2.read_byte
          ((cpu.registers.sp + 65535) % 65536)) <<< 8) |||
        ((CPU.check_and_handle_interrupts cpu m).2.read_byte
          ((cpu.registers.sp + 65534) % 65536)) = cpu.registers.pc ∧
      (CPU.check_and_handle_interrupts cpu m).2.read_byte 0xFF0F =
        m.read_byte 0xFF0F ∧
      (CPU.check_and_handle_interrupts cpu m).2.io_registers 0x0F =
        (m.read_byte 0xFF0F) &&& (0xFF ^^^ (1 <<< i)) ∧
      (∀ opcode, cpu.halted = true →
        (CPU.decode_and_execute cpu m opcode).1 = Except.ok 4) := by
  have hlt : (m.read_byte 0xFF0F) &&& (m.read_byte 0xFFFF) &&& 0x1F < 32 := by
    have h31 : (m.read_byte 0xFF0F) &&& (m.read_byte 0xFFFF) &&& 0x1F ≤ 31 :=
      Nat.and_le_right
    omega
  obtain ⟨i, hi5, hfind, htb, hleast⟩ :=
    serviceIndex_lowest _ hlt hpend
  refine ⟨i, hi5, hfind, htb, hleast, ?_⟩
  have hservice :
      CPU.check_and_handle_interrupts cpu m =
        (let new_if := (m.read_byte 0xFF0F) &&& (0xFF ^^^ (1 <<< i))
         let m1 := m.write_byte 0xFF0F new_if
         let cpu1 : CPU := { cpu with halted := false, ime := false }
         let pr := CPU.push_word cpu1 m1 cpu1.registers.pc
         ({ pr.1 with registers :=
             { pr.1.registers with pc := 0x0040 + i * 0x08 } }, pr.2)) := by
    unfold CPU.check_and_handle_interrupts
    dsimp only
    rw [if_neg (by simp [hime]), if_neg hpend, hfind]
  rw [hservice]
  refine ⟨rfl, rfl, rfl, rfl, ?_, ?_, ?_, ?_⟩
  · simp only [CPU.push_word]
    rw [mmu_read_write_self _ _ _ h2]
    rw [mmu_read_write_other _ _ _ _ h2 h1 (by omega)]
    rw [mmu_read_write_self _ _ _ h1]
    rw [and_mod256, and_mod256, Nat.shiftRight_eq_div_pow]
    rw [shiftLeft_lor_eq_add 8 _ _ (by omega)]
    have h256 : (2 : Nat) ^ 8 = 256 := by norm_num
    rw [h256]
    omega
  · simp only [CPU.push_word]
    rw [mmu_read_ff0f, mmu_read_ff0f]
    rw [mmu_write_interrupt_flags, mmu_write_interrupt_flags,
      mmu_write_interrupt_flags]
  · simp only [CPU.push_word]
    rw [mmu_write_writable_io _ _ _ h2, mmu_write_writable_io _ _ _ h1]
    exact mmu_write_ff0f_io m _
  · intro opcode hhalt
    unfold CPU.decode_and_execute
    simp [hhalt]

/-- Claim C1 counterexample: a halted CPU with IME set and Timer (bit 2)
pending in IE and IF.  One `decode_and_execute` step services the interrupt
but (a) reports 4 T-cycles, not 20; (b) sets PC to 0x0050 = 0x40 + 8·2, not
the claimed 0x40 + 5·2 = 0x4A; and (c) a subsequent read of 0xFF0F still
shows bit 2 set — the IF bit was not effectively cleared, because the MMU
routes the 0xFF0F write into `io_registers` while IF reads return
`interrupt_flags`. -/
theorem claim_C1_vector_and_cycles :
    (CPU.decode_and_execute { cpuZero with registers := { cpuZero.registers with pc := 0x1234, sp := 0xFFFE }, ime := true, halted := true } { mmuZero with interrupt_flags := 0x04, interrupt_enable := 0x04 } 0x00).1.toOption = some 4 ∧
    (CPU.decode_and_execute { cpuZero with registers := { cpuZero.registers with pc := 0x1234, sp := 0xFFFE }, ime := true, halted := true } { mmuZero with interrupt_flags := 0x04, interrupt_enable := 0x04 } 0x00).2.1.registers.pc = 0x50 ∧
    (0x40 + 5 * 2 : Nat) = 0x4A ∧ (0x50 : Nat) ≠ 0x4A ∧ (4 : Nat) ≠ 20 ∧
    (CPU.decode_and_execute { cpuZero with registers := { cpuZero.registers with pc := 0x1234, sp := 0xFFFE }, ime := true, halted := true } { mmuZero with interrupt_flags := 0x04, interrupt_enable := 0x04 } 0x00).2.2.read_byte 0xFF0F = 0x04 := by
  decide

/-- Witness for C1: the amended service behaviour at a concrete state (IME
set, Timer pending, SP = 0xFFFE in HRAM). -/
theorem claim_C1_interrupt_service_witness :
    ∃ i, i < 5 ∧
      serviceIndex ((({ mmuZero with interrupt_flags := 0x04, interrupt_enable := 0x04 } : MMU).read_byte 0xFF0F) &&& (({ mmuZero with interrupt_flags := 0x04, interrupt_enable := 0x04 } : MMU).read_byte 0xFFFF) &&& 0x1F) = some i ∧
      ((({ mmuZero with interrupt_flags := 0x04, interrupt_enable := 0x04 } : MMU).read_byte 0xFF0F) &&& (({ mmuZero with interrupt_flags := 0x04, interrupt_enable := 0x04 } : MMU).read_byte 0xFFFF) &&& 0x1F).testBit i = true ∧
      (∀ j, j < i → ((({ mmuZero with interrupt_flags := 0x04, interrupt_enable := 0x04 } : MMU).read_byte 0xFF0F) &&& (({ mmuZero with interrupt_flags := 0x04, interrupt_enable := 0x04 } : MMU).read_byte 0xFFFF) &&& 0x1F).testBit j = false) ∧
      (CPU.check_and_handle_interrupts { cpuZero with registers := { cpuZero.registers with pc := 0x1234, sp := 0xFFFE }, ime := true } { mmuZero with interrupt_flags := 0x04, interrupt_enable := 0x04 }).1.ime = false ∧
      (CPU.check_and_handle_interrupts { cpuZero with registers := { cpuZero.registers with pc := 0x1234, sp := 0xFFFE }, ime := true } { mmuZero with interrupt_flags := 0x04, interrupt_enable := 0x04 }).1.halted = false ∧
      (CPU.check_and_handle_interrupts { cpuZero with registers := { cpuZero.registers with pc := 0x1234, sp := 0xFFFE }, ime := true } { mmuZero with interrupt_flags := 0x04, interrupt_enable := 0x04 }).1.registers.pc = 0x0040 + i * 0x08 ∧
      (CPU.check_and_handle_interrupts { cpuZero with registers := { cpuZero.registers with pc := 0x1234, sp := 0xFFFE }, ime := true } { mmuZero with interrupt_flags := 0x04, interrupt_enable := 0x04 }).1.registers.sp = (({ cpuZero with registers := { cpuZero.registers with pc := 0x1234, sp := 0xFFFE }, ime := true } : CPU).registers.sp + 65534) % 65536 ∧
      (((CPU.check_and_handle_interrupts { cpuZero with registers := { cpuZero.registers with pc := 0x1234, sp := 0xFFFE }, ime := true } { mmuZero with interrupt_flags := 0x04, interrupt_enable := 0x04 }).2.read_byte ((({ cpuZero with registers := { cpuZero.registers with pc := 0x1234, sp := 0xFFFE }, ime := true } : CPU).registers.sp + 65535) % 65536)) <<< 8) ||| ((CPU.check_and_handle_interrupts { cpuZero with registers := { cpuZero.registers with pc := 0x1234, sp := 0xFFFE }, ime := true } { mmuZero with interrupt_flags := 0x04, interrupt_enable := 0x04 }).2.read_byte ((({ cpuZero with registers := { cpuZero.registers with pc := 0x1234, sp := 0xFFFE }, ime := true } : CPU).registers.sp + 65534) % 65536)) = ({ cpuZero with registers := { cpuZero.registers with pc := 0x1234, sp := 0xFFFE }, ime := true } : CPU).registers.pc ∧
      (CPU.check_and_handle_interrupts { cpuZero with registers := { cpuZero.registers with pc := 0x1234, sp := 0xFFFE }, ime := true } { mmuZero with interrupt_flags := 0x04, interrupt_enable := 0x04 }).2.read_byte 0xFF0F = ({ mmuZero with interrupt_flags := 0x04, interrupt_enable := 0x04 } : MMU).read_byte 0xFF0F ∧
      (CPU.check_and_handle_interrupts { cpuZero with registers := { cpuZero.registers with pc := 0x1234, sp := 0xFFFE }, ime := true } { mmuZero with interrupt_flags := 0x04, interrupt_enable := 0x04 }).2.io_registers 0x0F = (({ mmuZero with interrupt_flags := 0x04, interrupt_enable := 0x04 } : MMU).read_byte 0xFF0F) &&& (0xFF ^^^ (1 <<< i)) ∧
      (∀ opcode, ({ cpuZero with registers := { cpuZero.registers with pc := 0x1234, sp := 0xFFFE }, ime := true } : CPU).halted = true →
        (CPU.decode_and_execute { cpuZero with registers := { cpuZero.registers with pc := 0x1234, sp := 0xFFFE }, ime := true } { mmuZero with interrupt_flags := 0x04, interrupt_enable := 0x04 } opcode).1 = Except.ok 4) :=
  claim_C1_interrupt_service _ _ rfl (by decide) (by decide) (by decide)
    (by decide) (by decide)

/-! ## C6 — EI delayed enable (code bug: the delay flag is never consumed) -/

/-- Claim C6 (code bug shown at the failing input): executing EI (0xFB) at
PC = 0x0200 sets `ime_scheduled` and returns 4 cycles, but after the next
instruction (NOP) executes, IME is still false and `ime_scheduled` is still
true — no code path ever consumes `ime_scheduled` to set IME, so EI never
enables interrupts.  DI (0xF3) does clear IME immediately, as claimed. -/
theorem claim_C6_ei_never_enables_ime :
    ((CPU.decode_and_execute { cpuZero with registers := { cpuZero.registers with pc := 0x0200 } } mmuZero 0xFB).1.toOption = some 4) ∧
    ((CPU.decode_and_execute { cpuZero with registers := { cpuZero.registers with pc := 0x0200 } } mmuZero 0xFB).2.1.ime_scheduled = true) ∧
    ((CPU.decode_and_execute { cpuZero with registers := { cpuZero.registers with pc := 0x0200 } } mmuZero 0xFB).2.1.ime = false) ∧
    ((CPU.decode_and_execute { cpuZero with registers := { cpuZero.registers with pc := 0x0200 } } mmuZero 0xFB).2.1.registers.pc = 0x0201) ∧
    ((CPU.decode_and_execute (CPU.decode_and_execute { cpuZero with registers := { cpuZero.registers with pc := 0x0200 } } mmuZero 0xFB).2.1 (CPU.decode_and_execute { cpuZero with registers := { cpuZero.registers with pc := 0x0200 } } mmuZero 0xFB).2.2 0x00).1.toOption = some 4) ∧
    ((CPU.decode_and_execute (CPU.decode_and_execute { cpuZero with registers := { cpuZero.registers with pc := 0x0200 } } mmuZero 0xFB).2.1 (CPU.decode_and_execute { cpuZero with registers := { cpuZero.registers with pc := 0x0200 } } mmuZero 0xFB).2.2 0x00).2.1.ime = false) ∧
    ((CPU.decode_and_execute (CPU.decode_and_execute { cpuZero with registers := { cpuZero.registers with pc := 0x0200 } } mmuZero 0xFB).2.1 (CPU.decode_and_execute { cpuZero with registers := { cpuZero.registers with pc := 0x0200 } } mmuZero 0xFB).2.2 0x00).2.1.ime_scheduled = true) ∧
    ((CPU.decode_and_execute { cpuZero with registers := { cpuZero.registers with pc := 0x0200 }, ime := true } mmuZero 0xF3).2.1.ime = false) := by
  decide

/-! ## C2 — illegal opcodes -/

theorem ppu_step_lcd_off (p : PPU) (m : MMU) (c : Nat)
    (h : (m.io_registers 0x40) &&& 0x80 = 0) :
    ∃ m2, PPU.step p m c = Except.ok (⟨0, 0, 0⟩, m2) ∧
      m2.io_registers 0x40 = m.io_registers 0x40 := by
  unfold PPU.step
  dsimp only
  rw [if_pos (by simp [show m.read_byte 0xFF40 = m.io_registers 0x40 from rfl, h])]
  refine ⟨_, rfl, ?_⟩
  simp [PPU.update_lcd_status, MMU.write_byte, MMU.read_byte]

theorem ppuSpin_lcd_off (p : PPU) (m : MMU) (c : Nat)
    (h : (m.io_registers 0x40) &&& 0x80 = 0) :
    ∃ p2 m2, GameBoy.ppuSpin p m c = Except.ok (p2, m2) := by
  induction c using Nat.strong_induction_on generalizing p m with
  | _ c ih =>
    unfold GameBoy.ppuSpin
    by_cases hc : c = 0
    · rw [dif_pos hc]
      exact ⟨p, m, rfl⟩
    · rw [dif_neg hc]
      obtain ⟨m2, hstep, hio⟩ := ppu_step_lcd_off p m 4 h
      rw [hstep]
      exact ih (c - 4) (by omega) ⟨0, 0, 0⟩ m2 (by rw [hio]; exact h)

theorem gameboy_illegal_step (g : GameBoy) (op : Nat)
    (hop : [0xD3, 0xDB, 0xDD, 0xE3, 0xE4, 0xEB, 0xEC, 0xED, 0xF4, 0xFC,
        0xFD].contains op = true)
    (hh : g.cpu.halted = false)
    (hfetch : g.mmu.read_byte g.cpu.registers.pc = op)
    (hlcd : (g.mmu.io_registers 0x40) &&& 0x80 = 0) :
    (CPU.decode_and_execute g.cpu g.mmu op).1 =
      Except.error (.instruction (.invalidOpcode op)) ∧
    ∃ g2, GameBoy.step g = Except.ok (4, g2) ∧
      g2.cpu.registers.pc = (g.cpu.registers.pc + 1) % 65536 ∧
      g2.cpu.halted = false := by
  have hdec : CPU.decode_and_execute g.cpu g.mmu op =
      (Except.error (.instruction (.invalidOpcode op)),
       { g.cpu with instruction_count :=
           (g.cpu.instruction_count + 1) % 18446744073709551616 }, g.mmu) := by
    unfold CPU.decode_and_execute
    dsimp only
    rw [if_neg (by simp [hh]), if_pos hop]
  refine ⟨by rw [hdec], ?_⟩
  unfold GameBoy.step
  dsimp only
  rw [hfetch, hdec]
  dsimp only
  obtain ⟨p2, m2, hspin⟩ := ppuSpin_lcd_off g.ppu g.mmu 4 hlcd
  rw [hspin]
  exact ⟨_, rfl, rfl, hh⟩

/-- Claim C2 (amended): each of the eleven illegal primary opcodes makes
`CPU::decode_and_execute` return an `InvalidOpcode` error — the CPU core
never executes them — but `GameBoy::step` catches exactly that error,
advances PC past the opcode and continues execution reporting 4 cycles (here
shown with the LCD disabled so that the PPU advance is rendering-free): the
emulator neither halts the core nor propagates the error to the host; the
opcode is skipped like a NOP. -/
theorem claim_C2_illegal_opcode (g : GameBoy) (op : Nat)
    (hop : [0xD3, 0xDB, 0xDD, 0xE3, 0xE4, 0xEB, 0xEC, 0xED, 0xF4, 0xFC,
        0xFD].contains op = true)
    (hh : g.cpu.halted = false)
    (hfetch : g.mmu.read_byte g.cpu.registers.pc = op)
    (hlcd : (g.mmu.io_registers 0x40) &&& 0x80 = 0) :
    (CPU.decode_and_execute g.cpu g.mmu op).1 =
      Except.error (.instruction (.invalidOpcode op)) ∧
    ∃ g2, GameBoy.step g = Except.ok (4, g2) ∧
      g2.cpu.registers.pc = (g.cpu.registers.pc + 1) % 65536 ∧
      g2.cpu.halted = false :=
  gameboy_illegal_step g op hop hh hfetch hlcd

/-- Claim C2 counterexample: a concrete machine whose ROM byte at PC = 0 is
the illegal opcode 0xD3 and whose LCD is off.  `GameBoy::step` returns
`Ok(4)` with PC advanced to 1 and the core not halted: the emulator silently
continues as if the opcode were a NOP, refuting "halts the core or
propagates a fatal error ... never silently continues". -/
theorem claim_C2_silently_continues :
    ∃ g2, GameBoy.step { mmu := { mmuZero with cartridge_rom := fun _ => 0xD3, cartridge_rom_len := 1 }, ppu := ppuZero, cpu := cpuZero, render_count := 0 } = Except.ok (4, g2) ∧
      g2.cpu.registers.pc = 1 ∧ g2.cpu.halted = false := by
  obtain ⟨-, g2, hstep, hpc, hhalt⟩ :=
    gameboy_illegal_step { mmu := { mmuZero with cartridge_rom := fun _ => 0xD3, cartridge_rom_len := 1 }, ppu := ppuZero, cpu := cpuZero, render_count := 0 }
      0xD3 (by decide) rfl (by decide) (by decide)
  exact ⟨g2, hstep, by simpa using hpc, hhalt⟩

/-- Witness for C2: the amended behaviour at a concrete machine with illegal
opcode 0xED at PC = 0. -/
theorem claim_C2_illegal_opcode_witness :
    (CPU.decode_and_execute cpuZero { mmuZero with cartridge_rom := fun _ => 0xED, cartridge_rom_len := 1 } 0xED).1 =
      Except.error (.instruction (.invalidOpcode 0xED)) ∧
    ∃ g2, GameBoy.step { mmu := { mmuZero with cartridge_rom := fun _ => 0xED, cartridge_rom_len := 1 }, ppu := ppuZero, cpu := cpuZero, render_count := 0 } = Except.ok (4, g2) ∧
      g2.cpu.registers.pc = (({ mmu := { mmuZero with cartridge_rom := fun _ => 0xED, cartridge_rom_len := 1 }, ppu := ppuZero, cpu := cpuZero, render_count := 0 } : GameBoy).cpu.registers.pc + 1) % 65536 ∧
      g2.cpu.halted = false :=
  claim_C2_illegal_opcode { mmu := { mmuZero with cartridge_rom := fun _ => 0xED, cartridge_rom_len := 1 }, ppu := ppuZero, cpu := cpuZero, render_count := 0 } 0xED (by decide) rfl (by decide) (by decide)

/-! ## C5 — TIMA timer -/

theorem timaLoop_eq (period : Nat) (hp : 0 < period) :
    ∀ counter t tma f, timaLoop period counter t tma f =
      (counter % period,
       (fun p : Nat × Nat => timaTick p.1 tma p.2)^[counter / period] (t, f)) := by
  intro counter
  induction counter using Nat.strong_induction_on with
  | _ counter ih =>
    intro t tma f
    unfold timaLoop
    by_cases hc : period ≤ counter
    · rw [dif_pos ⟨hp, hc⟩]
      dsimp only
      rw [ih (counter - period) (by omega) _ tma _]
      rw [show counter % period = (counter - period) % period from
        Nat.mod_eq_sub_mod hc]
      rw [Nat.div_eq_sub_div hp hc, Function.iterate_succ_apply]
    · rw [dif_neg (fun h => hc h.2)]
      rw [Nat.mod_eq_of_lt (by omega), Nat.div_eq_of_lt (by omega)]
      rfl

theorem stepDiv_tima (b : Bus) (c : Nat) : (Bus.stepDiv b c).tima = b.tima := by
  unfold Bus.stepDiv; dsimp only; split_ifs <;> rfl

theorem stepDiv_tima_counter (b : Bus) (c : Nat) :
    (Bus.stepDiv b c).tima_counter = b.tima_counter := by
  unfold Bus.stepDiv; dsimp only; split_ifs <;> rfl

theorem stepDiv_tma (b : Bus) (c : Nat) : (Bus.stepDiv b c).tma = b.tma := by
  unfold Bus.stepDiv; dsimp only; split_ifs <;> rfl

theorem stepDiv_tac (b : Bus) (c : Nat) : (Bus.stepDiv b c).tac = b.tac := by
  unfold Bus.stepDiv; dsimp only; split_ifs <;> rfl

theorem stepDiv_ifl (b : Bus) (c : Nat) : (Bus.stepDiv b c).ifl = b.ifl := by
  unfold Bus.stepDiv; dsimp only; split_ifs <;> rfl

theorem stepDiv_ly (b : Bus) (c : Nat) : (Bus.stepDiv b c).ly = b.ly := by
  unfold Bus.stepDiv; dsimp only; split_ifs <;> rfl

theorem stepDiv_lc (b : Bus) (c : Nat) :
    (Bus.stepDiv b c).ppu_line_cycle = b.ppu_line_cycle := by
  unfold Bus.stepDiv; dsimp only; split_ifs <;> rfl

theorem stepDiv_mode (b : Bus) (c : Nat) :
    (Bus.stepDiv b c).ppu_mode = b.ppu_mode := by
  unfold Bus.stepDiv; dsimp only; split_ifs <;> rfl

theorem stepDiv_lcdc (b : Bus) (c : Nat) : (Bus.stepDiv b c).lcdc = b.lcdc := by
  unfold Bus.stepDiv; dsimp only; split_ifs <;> rfl

theorem stepDiv_stat_w (b : Bus) (c : Nat) :
    (Bus.stepDiv b c).stat_w = b.stat_w := by
  unfold Bus.stepDiv; dsimp only; split_ifs <;> rfl

theorem stepDiv_lyc (b : Bus) (c : Nat) : (Bus.stepDiv b c).lyc = b.lyc := by
  unfold Bus.stepDiv; dsimp only; split_ifs <;> rfl

theorem stepDiv_period (b : Bus) (c : Nat) :
    (Bus.stepDiv b c).tima_period_cycles = b.tima_period_cycles := by
  unfold Bus.tima_period_cycles
  rw [stepDiv_tac]

theorem stepTimer_ly (b : Bus) (c : Nat) : (Bus.stepTimer b c).ly = b.ly := by
  unfold Bus.stepTimer; dsimp only; split_ifs <;> rfl

theorem stepTimer_lc (b : Bus) (c : Nat) :
    (Bus.stepTimer b c).ppu_line_cycle = b.ppu_line_cycle := by
  unfold Bus.stepTimer; dsimp only; split_ifs <;> rfl

theorem stepTimer_mode (b : Bus) (c : Nat) :
    (Bus.stepTimer b c).ppu_mode = b.ppu_mode := by
  unfold Bus.stepTimer; dsimp only; split_ifs <;> rfl

theorem stepTimer_lcdc (b : Bus) (c : Nat) :
    (Bus.stepTimer b c).lcdc = b.lcdc := by
  unfold Bus.stepTimer; dsimp only; split_ifs <;> rfl

theorem stepTimer_stat_w (b : Bus) (c : Nat) :
    (Bus.stepTimer b c).stat_w = b.stat_w := by
  unfold Bus.stepTimer; dsimp only; split_ifs <;> rfl

theorem stepTimer_lyc (b : Bus) (c : Nat) : (Bus.stepTimer b c).lyc = b.lyc := by
  unfold Bus.stepTimer; dsimp only; split_ifs <;> rfl

theorem stepTimer_eq (b : Bus) (c : Nat) (hen : b.tac &&& 0x04 ≠ 0) :
    Bus.stepTimer b c =
      { b with
        tima_counter := (timaLoop b.tima_period_cycles
          ((b.tima_counter + c) % 4294967296) b.tima b.tma b.ifl).1
        tima := (timaLoop b.tima_period_cycles
          ((b.tima_counter + c) % 4294967296) b.tima b.tma b.ifl).2.1
        ifl := (timaLoop b.tima_period_cycles
          ((b.tima_counter + c) % 4294967296) b.tima b.tma b.ifl).2.2 } := by
  unfold Bus.stepTimer
  rw [if_pos hen]

theorem ppuModeSwitch_tima (b : Bus) (mode : Nat) :
    (b.ppuModeSwitch mode).tima = b.tima := by
  unfold Bus.ppuModeSwitch Bus.render_scanline; dsimp only; split_ifs <;> rfl

theorem ppuModeSwitch_tima_counter (b : Bus) (mode : Nat) :
    (b.ppuModeSwitch mode).tima_counter = b.tima_counter := by
  unfold Bus.ppuModeSwitch Bus.render_scanline; dsimp only; split_ifs <;> rfl

theorem ppuModeSwitch_ly (b : Bus) (mode : Nat) :
    (b.ppuModeSwitch mode).ly = b.ly := by
  unfold Bus.ppuModeSwitch Bus.render_scanline; dsimp only; split_ifs <;> rfl

theorem ppuModeSwitch_lc (b : Bus) (mode : Nat) :
    (b.ppuModeSwitch mode).ppu_line_cycle = b.ppu_line_cycle := by
  unfold Bus.ppuModeSwitch Bus.render_scanline; dsimp only; split_ifs <;> rfl

theorem ppuModeSwitch_mode (b : Bus) (mode : Nat) :
    (b.ppuModeSwitch mode).ppu_mode = mode := by
  unfold Bus.ppuModeSwitch Bus.render_scanline
  dsimp only
  split_ifs with h <;> first | rfl | omega

theorem ppuModeSwitch_ifl_bit2 (b : Bus) (mode : Nat) :
    (b.ppuModeSwitch mode).ifl.testBit 2 = b.ifl.testBit 2 := by
  unfold Bus.ppuModeSwitch Bus.render_scanline
  dsimp only
  split_ifs <;>
    first
      | rfl
      | exact testBit_two_lor_small _ _ (by norm_num)

theorem lineAdvance_tima (b : Bus) : b.lineAdvance.tima = b.tima := by
  unfold Bus.lineAdvance; dsimp only; split_ifs <;> rfl

theorem lineAdvance_tima_counter (b : Bus) :
    b.lineAdvance.tima_counter = b.tima_counter := by
  unfold Bus.lineAdvance; dsimp only; split_ifs <;> rfl

theorem lineAdvance_lc (b : Bus) : b.lineAdvance.ppu_line_cycle = 0 := by
  unfold Bus.lineAdvance; dsimp only; split_ifs <;> rfl

theorem lineAdvance_ifl_bit2 (b : Bus) :
    b.lineAdvance.ifl.testBit 2 = b.ifl.testBit 2 := by
  unfold Bus.lineAdvance
  dsimp only
  split_ifs <;>
    simp only [testBit_two_lor_small _ 2 (by norm_num),
      testBit_two_lor_small _ 1 (by norm_num)]

theorem ppuIterate_timer (b : Bus) (remain : Nat) :
    (b.ppuIterate remain).1.tima = b.tima ∧
    (b.ppuIterate remain).1.tima_counter = b.tima_counter ∧
    (b.ppuIterate remain).1.ifl.testBit 2 = b.ifl.testBit 2 := by
  unfold Bus.ppuIterate
  dsimp only
  split_ifs with h
  · refine ⟨?_, ?_, ?_⟩
    · rw [lineAdvance_tima]; exact ppuModeSwitch_tima b _
    · rw [lineAdvance_tima_counter]; exact ppuModeSwitch_tima_counter b _
    · rw [lineAdvance_ifl_bit2]; exact ppuModeSwitch_ifl_bit2 b _
  · exact ⟨ppuModeSwitch_tima b _, ppuModeSwitch_tima_counter b _,
      ppuModeSwitch_ifl_bit2 b _⟩

theorem ppuLoop_timer (remain : Nat) (b : Bus) :
    (Bus.ppuLoop remain b).tima = b.tima ∧
    (Bus.ppuLoop remain b).tima_counter = b.tima_counter ∧
    (Bus.ppuLoop remain b).ifl.testBit 2 = b.ifl.testBit 2 := by
  induction remain using Nat.strong_induction_on generalizing b with
  | _ remain ih =>
    unfold Bus.ppuLoop
    by_cases h0 : remain = 0
    · rw [dif_pos h0]; exact ⟨rfl, rfl, rfl⟩
    · rw [dif_neg h0]
      dsimp only
      by_cases h1 : (b.ppuIterate remain).2 = 0
      · rw [dif_pos h1]; exact ppuIterate_timer b remain
      · rw [dif_neg h1]
        obtain ⟨i1, i2, i3⟩ := ppuIterate_timer b remain
        obtain ⟨l1, l2, l3⟩ := ih (remain - (b.ppuIterate remain).2)
          (Nat.sub_lt (Nat.pos_of_ne_zero h0) (Nat.pos_of_ne_zero h1))
          (b.ppuIterate remain).1
        exact ⟨l1.trans i1, l2.trans i2, l3.trans i3⟩

theorem stepPpu_tima (b : Bus) (c : Nat) : (Bus.stepPpu b c).tima = b.tima := by
  unfold Bus.stepPpu
  dsimp only
  split_ifs with h h2
  · exact (ppuLoop_timer c b).1
  · exact (ppuLoop_timer c b).1
  · rfl

theorem stepPpu_tima_counter (b : Bus) (c : Nat) :
    (Bus.stepPpu b c).tima_counter = b.tima_counter := by
  unfold Bus.stepPpu
  dsimp only
  split_ifs with h h2
  · exact (ppuLoop_timer c b).2.1
  · exact (ppuLoop_timer c b).2.1
  · rfl

theorem stepPpu_ifl_bit2 (b : Bus) (c : Nat) :
    (Bus.stepPpu b c).ifl.testBit 2 = b.ifl.testBit 2 := by
  unfold Bus.stepPpu
  dsimp only
  split_ifs with h h2
  · exact (testBit_two_lor_small _ 2 (by norm_num)).trans (ppuLoop_timer c b).2.2
  · exact (ppuLoop_timer c b).2.2
  · rfl

/-- C5: with TAC bit 2 set, `Bus::step` advances the TIMA machinery exactly
as the accumulated-counter loop prescribes: the new TIMA and the timer bit of
IF are those obtained by applying the per-period tick `timaTick` once per
elapsed period (`total / period` times, where `total` is the accumulated
`tima_counter` plus the truncated cycle count), the residue `total % period`
is kept in `tima_counter`, the period selected by TAC's low 2 bits is
1024/16/64/256 T-cycles, a tick at TIMA=0xFF reloads TIMA from TMA and raises
IF bit 2 (Timer), and a tick below 0xFF merely increments TIMA. -/
theorem claim_C5_timer (b : Bus) (cycles : Nat) (hen : b.tac &&& 0x04 ≠ 0) :
    (Bus.step b cycles).tima =
      ((fun p : Nat × Nat => timaTick p.1 b.tma p.2)^[
        ((b.tima_counter + cycles % 4294967296) % 4294967296) /
          b.tima_period_cycles] (b.tima, b.ifl)).1 ∧
    (Bus.step b cycles).tima_counter =
      ((b.tima_counter + cycles % 4294967296) % 4294967296) %
        b.tima_period_cycles ∧
    (Bus.step b cycles).ifl.testBit 2 =
      ((fun p : Nat × Nat => timaTick p.1 b.tma p.2)^[
        ((b.tima_counter + cycles % 4294967296) % 4294967296) /
          b.tima_period_cycles] (b.tima, b.ifl)).2.testBit 2 ∧
    (b.tac &&& 0x03 = 0x00 → b.tima_period_cycles = 1024) ∧
    (b.tac &&& 0x03 = 0x01 → b.tima_period_cycles = 16) ∧
    (b.tac &&& 0x03 = 0x02 → b.tima_period_cycles = 64) ∧
    (b.tac &&& 0x03 = 0x03 → b.tima_period_cycles = 256) ∧
    (∀ f, (timaTick 0xFF b.tma f).1 = b.tma ∧
      (timaTick 0xFF b.tma f).2.testBit 2 = true) ∧
    (∀ t f, t < 0xFF → timaTick t b.tma f = (t + 1, f)) := by
  have hp : 0 < b.tima_period_cycles := by
    unfold Bus.tima_period_cycles; split_ifs <;> norm_num
  unfold Bus.step
  dsimp only
  rw [stepTimer_eq (Bus.stepDiv b (cycles % 4294967296)) (cycles % 4294967296)
    (by rw [stepDiv_tac]; exact hen)]
  refine ⟨?_, ?_, ?_, ?_, ?_, ?_, ?_, ?_, ?_⟩
  · rw [stepPpu_tima]
    show (timaLoop _ _ _ _ _).2.1 = _
    simp only [stepDiv_period, stepDiv_tima, stepDiv_tima_counter, stepDiv_tma,
      stepDiv_ifl]
    rw [timaLoop_eq b.tima_period_cycles hp]
  · rw [stepPpu_tima_counter]
    show (timaLoop _ _ _ _ _).1 = _
    simp only [stepDiv_period, stepDiv_tima, stepDiv_tima_counter, stepDiv_tma,
      stepDiv_ifl]
    rw [timaLoop_eq b.tima_period_cycles hp]
  · rw [stepPpu_ifl_bit2]
    show (timaLoop _ _ _ _ _).2.2.testBit 2 = _
    simp only [stepDiv_period, stepDiv_tima, stepDiv_tima_counter, stepDiv_tma,
      stepDiv_ifl]
    rw [timaLoop_eq b.tima_period_cycles hp]
  · intro h; simp [Bus.tima_period_cycles, h]
  · intro h; simp [Bus.tima_period_cycles, h]
  · intro h; simp [Bus.tima_period_cycles, h]
  · intro h; simp [Bus.tima_period_cycles, h]
  · intro f
    refine ⟨rfl, ?_⟩
    show (f ||| 0x04).testBit 2 = true
    rw [Nat.testBit_lor]
    simp [show (0x04 : Nat).testBit 2 = true from by decide]
  · intro t f ht
    unfold timaTick
    rw [if_neg (by omega), Nat.mod_eq_of_lt (by omega)]

/-- Witness for C5: on a bus with TAC=0x05 (timer on, period 16 T-cycles),
TIMA=0xFE and TMA=0x42, 48 cycles produce three ticks: 0xFE→0xFF, the
overflow reload to 0x42 raising IF bit 2, then 0x42→0x43. -/
theorem claim_C5_timer_witness :
    ((({ busZero with tac := 0x05, tima := 0xFE, tma := 0x42 } : Bus).tac &&&
        0x04 ≠ 0) ∧
      (Bus.step { busZero with tac := 0x05, tima := 0xFE, tma := 0x42 }
          48).tima = 0x43 ∧
      (Bus.step { busZero with tac := 0x05, tima := 0xFE, tma := 0x42 }
          48).ifl.testBit 2 = true ∧
      ({ busZero with tac := 0x05, tima := 0xFE, tma := 0x42 } :
          Bus).tima_period_cycles = 16) := by
  have h := claim_C5_timer
    { busZero with tac := 0x05, tima := 0xFE, tma := 0x42 } 48 (by decide)
  refine ⟨by decide, ?_, ?_, h.2.2.2.2.1 (by decide)⟩
  · rw [h.1]; decide
  · rw [h.2.2.1]; decide

/-! ## C7 — OAM DMA -/

theorem cell_oam (i : Nat) (hi : i < 160) :
    RAM.cell ((0xFE00 + i) % 65536) = 0xFE00 + i := by
  rw [Nat.mod_eq_of_lt (by omega)]
  unfold RAM.cell
  rw [if_neg (by omega)]

theorem read_rom_ram_congr (bb : Bus) (r : RAM) (a : Nat) :
    Bus.read_rom { bb with ram := r } a = bb.read_rom a := by
  unfold Bus.read_rom Bus.mbc1_calc_bank0 Bus.mbc1_calc_bankX
  dsimp only

theorem read_rom_dma_congr (bb : Bus) (v a : Nat) :
    Bus.read_rom { bb with dma := v } a = bb.read_rom a := by
  unfold Bus.read_rom Bus.mbc1_calc_bank0 Bus.mbc1_calc_bankX
  dsimp only

theorem read_ram_congr (bb : Bus) (r : RAM) (a : Nat)
    (h : r.read a = bb.ram.read a) :
    Bus.read { bb with ram := r } a = bb.read a := by
  unfold Bus.read
  dsimp only
  rw [read_rom_ram_congr, h]

theorem dmaCopy_read (s : Nat) (bb : Bus) (i a : Nat) (hi : i < 160)
    (ha : ¬(0xFE00 ≤ a ∧ a ≤ 0xFE9F)) :
    (Bus.dmaCopy s bb i).read a = bb.read a := by
  have hcell : RAM.cell a ≠ RAM.cell ((0xFE00 + i) % 65536) := by
    rw [cell_oam i hi]
    unfold RAM.cell
    split_ifs <;> omega
  unfold Bus.dmaCopy
  refine read_ram_congr bb _ a ?_
  unfold RAM.read RAM.write
  dsimp only
  rw [if_neg hcell]

theorem dmaCopy_ram_self (s : Nat) (bb : Bus) (i : Nat) (hi : i < 160) :
    (Bus.dmaCopy s bb i).ram.data (0xFE00 + i) = bb.read ((s + i) % 65536) := by
  unfold Bus.dmaCopy RAM.write
  dsimp only
  rw [if_pos (cell_oam i hi).symm]

theorem dmaCopy_ram_frame (s : Nat) (bb : Bus) (i x : Nat) (hi : i < 160)
    (hx : x ≠ 0xFE00 + i) :
    (Bus.dmaCopy s bb i).ram.data x = bb.ram.data x := by
  unfold Bus.dmaCopy RAM.write
  dsimp only
  rw [if_neg (fun h => hx (h.trans (cell_oam i hi)))]

theorem dmaFold_spec (v : Nat) (hv : v ≤ 0xFD) (B0 : Bus) :
    ∀ n, n ≤ 160 →
    (∀ a, ¬(0xFE00 ≤ a ∧ a ≤ 0xFE9F) →
      ((List.range n).foldl (Bus.dmaCopy (v <<< 8)) B0).read a = B0.read a) ∧
    (∀ i, i < n →
      ((List.range n).foldl (Bus.dmaCopy (v <<< 8)) B0).ram.data (0xFE00 + i) =
        B0.read (v <<< 8 + i)) ∧
    ((List.range n).foldl (Bus.dmaCopy (v <<< 8)) B0).dma = B0.dma := by
  have hs : v <<< 8 = v * 256 := by rw [Nat.shiftLeft_eq]
  intro n
  induction n with
  | zero => exact fun _ => ⟨fun a _ => rfl, fun i hi => absurd hi (by omega), rfl⟩
  | succ n ih =>
    intro hn
    obtain ⟨ih1, ih2, ih3⟩ := ih (by omega)
    rw [List.range_succ, List.foldl_append]
    simp only [List.foldl_cons, List.foldl_nil]
    refine ⟨?_, ?_, ?_⟩
    · intro a ha
      rw [dmaCopy_read _ _ _ _ (by omega) ha]
      exact ih1 a ha
    · intro i hi
      by_cases hii : i = n
      · subst hii
        rw [dmaCopy_ram_self _ _ _ (by omega)]
        rw [Nat.mod_eq_of_lt (by omega)]
        exact ih1 _ (by omega)
      · rw [dmaCopy_ram_frame _ _ _ _ (by omega) (by omega)]
        exact ih2 i (by omega)
    · exact ih3

theorem read_dma_congr (b : Bus) (v a : Nat) (ha : a ≠ 0xFF46) :
    ({ b with dma := v } : Bus).read a = b.read a := by
  unfold Bus.read
  dsimp only
  rw [read_rom_dma_congr, if_neg ha, if_neg ha]

/-- C7 (as amended): writing v to 0xFF46 performs the whole 160-byte OAM DMA
copy immediately, inside the write itself: the DMA register latches v, each
OAM cell 0xFE00+i receives the byte the bus reads at source address
(v<<8)+i, and — contrary to the claimed 640-T-cycle blocking window — every
read outside OAM (and other than the DMA register itself) returns exactly
what it returned before the write; no cycle counter or read gating exists. -/
theorem claim_C7_oam_dma (b : Bus) (v : Nat) (hv : v ≤ 0xFD) :
    (b.write 0xFF46 v).dma = v ∧
    (∀ i, i < 160 →
      (b.write 0xFF46 v).ram.data (0xFE00 + i) = b.read (v <<< 8 + i)) ∧
    (∀ a, ¬(0xFE00 ≤ a ∧ a ≤ 0xFE9F) → a ≠ 0xFF46 →
      (b.write 0xFF46 v).read a = b.read a) := by
  have hs : v <<< 8 = v * 256 := by rw [Nat.shiftLeft_eq]
  have hw : b.write 0xFF46 v =
      (List.range 160).foldl (Bus.dmaCopy (v <<< 8)) { b with dma := v } := by
    unfold Bus.write
    repeat rw [if_neg (by omega)]
    rw [if_pos rfl]
  obtain ⟨f1, f2, f3⟩ := dmaFold_spec v hv { b with dma := v } 160 (le_refl 160)
  refine ⟨?_, ?_, ?_⟩
  · rw [hw]; exact f3
  · intro i hi
    rw [hw, f2 i hi]
    exact read_dma_congr b v _ (by omega)
  · intro a ha hne
    rw [hw, f1 a ha]
    exact read_dma_congr b v a hne

/-- Counterexample to C7 as stated: on the power-on bus with WRAM byte
0xC000 = 0xAB, immediately after the write of 0xC0 to 0xFF46 a read from
0x0000 returns 0x00 (not the claimed 0xFF of a 640-cycle DMA window), and
OAM byte 0xFE00 already holds the copied source byte 0xAB — the transfer is
instantaneous, not spread over 640 T-cycles. -/
theorem claim_C7_no_dma_window :
    (Bus.write c7bus 0xFF46 0xC0).read 0x0000 = 0x00 ∧
    (Bus.write c7bus 0xFF46 0xC0).read 0x0000 ≠ 0xFF ∧
    (Bus.write c7bus 0xFF46 0xC0).ram.data 0xFE00 = 0xAB ∧
    c7bus.read 0xC000 = 0xAB := by
  decide

/-- Witness for C7 at v = 0xC0 on the marked power-on bus: the hypothesis
v ≤ 0xFD holds, the DMA register latches 0xC0, OAM byte 0 equals the source
byte read at 0xC000, and a WRAM read is unaffected by the write. -/
theorem claim_C7_oam_dma_witness :
    (0xC0 : Nat) ≤ 0xFD ∧
    (Bus.write c7bus 0xFF46 0xC0).dma = 0xC0 ∧
    (Bus.write c7bus 0xFF46 0xC0).ram.data 0xFE00 = c7bus.read (0xC0 <<< 8 + 0) ∧
    (Bus.write c7bus 0xFF46 0xC0).read 0xC000 = c7bus.read 0xC000 := by
  have h := claim_C7_oam_dma c7bus 0xC0 (by norm_num)
  exact ⟨by norm_num, h.1, h.2.1 0 (by norm_num),
    h.2.2 0xC000 (by omega) (by omega)⟩

/-! ## C8 — PPU mode and scanline coupling -/

theorem ppuLoop_zero (b : Bus) : Bus.ppuLoop 0 b = b := by
  unfold Bus.ppuLoop
  rw [dif_pos rfl]

theorem ppuModeBoundary_pos (b : Bus) (hlc : b.ppu_line_cycle < 456) :
    b.ppu_line_cycle < (b.ppuModeBoundary).2 ∧ (b.ppuModeBoundary).2 ≤ 456 := by
  unfold Bus.ppuModeBoundary
  split_ifs with h1 h2 h3
  · exact ⟨(by omega : b.ppu_line_cycle < 456), (by norm_num : (456 : Nat) ≤ 456)⟩
  · exact ⟨(by omega : b.ppu_line_cycle < 80), (by norm_num : (80 : Nat) ≤ 456)⟩
  · exact ⟨(by omega : b.ppu_line_cycle < 252), (by norm_num : (252 : Nat) ≤ 456)⟩
  · exact ⟨(by omega : b.ppu_line_cycle < 456), (by norm_num : (456 : Nat) ≤ 456)⟩

theorem ppuModeBoundary_mode_iff (b : Bus) :
    ((b.ppuModeBoundary).1 = 1 ↔ 144 ≤ b.ly) := by
  unfold Bus.ppuModeBoundary
  split_ifs with h1 h2 h3
  · exact ⟨fun _ => h1, fun _ => rfl⟩
  · exact ⟨fun hh => absurd (show (2 : Nat) = 1 from hh) (by norm_num),
      fun hh => absurd hh h1⟩
  · exact ⟨fun hh => absurd (show (3 : Nat) = 1 from hh) (by norm_num),
      fun hh => absurd hh h1⟩
  · exact ⟨fun hh => hh.elim, fun hh => absurd hh h1⟩

theorem ppuIterate_inv (b : Bus) (remain : Nat) (hlc : b.ppu_line_cycle < 456)
    (hrem : remain ≠ 0) :
    0 < (b.ppuIterate remain).2 ∧
    (b.ppuIterate remain).1.ppu_line_cycle < 456 ∧
    (0 < (b.ppuIterate remain).1.ppu_line_cycle →
      ((b.ppuIterate remain).1.ppu_mode = 1 ↔
        144 ≤ (b.ppuIterate remain).1.ly)) := by
  have hb := ppuModeBoundary_pos b hlc
  have hmiff := ppuModeBoundary_mode_iff b
  unfold Bus.ppuIterate
  dsimp only
  rw [ppuModeSwitch_lc]
  refine ⟨by omega, ?_, ?_⟩
  · split_ifs with hge
    · rw [lineAdvance_lc]; norm_num
    · dsimp only
      omega
  · split_ifs with hge
    · rw [lineAdvance_lc]
      intro h
      exact absurd h (by norm_num)
    · dsimp only
      rw [ppuModeSwitch_mode, ppuModeSwitch_ly]
      intro h
      exact hmiff

theorem ppuLoop_inv : ∀ remain (b : Bus), remain ≠ 0 →
    b.ppu_line_cycle < 456 →
    (Bus.ppuLoop remain b).ppu_line_cycle < 456 ∧
    (0 < (Bus.ppuLoop remain b).ppu_line_cycle →
      ((Bus.ppuLoop remain b).ppu_mode = 1 ↔
        144 ≤ (Bus.ppuLoop remain b).ly)) := by
  intro remain
  induction remain using Nat.strong_induction_on with
  | _ remain ih =>
    intro b h0 hlc
    obtain ⟨hpos, hlt, hcpl⟩ := ppuIterate_inv b remain hlc h0
    unfold Bus.ppuLoop
    rw [dif_neg h0]
    dsimp only
    rw [dif_neg (by omega : ¬(b.ppuIterate remain).2 = 0)]
    by_cases hz : remain - (b.ppuIterate remain).2 = 0
    · rw [hz, ppuLoop_zero]
      exact ⟨hlt, hcpl⟩
    · exact ih (remain - (b.ppuIterate remain).2) (by omega)
        (b.ppuIterate remain).1 hz hlt

theorem stepPpu_inv (b : Bus) (c : Nat) (hlc : b.ppu_line_cycle < 456)
    (hc : c ≠ 0) :
    (Bus.stepPpu b c).ppu_line_cycle < 456 ∧
    (0 < (Bus.stepPpu b c).ppu_line_cycle →
      ((Bus.stepPpu b c).ppu_mode = 1 ↔ 144 ≤ (Bus.stepPpu b c).ly)) := by
  unfold Bus.stepPpu
  dsimp only
  split_ifs with h h2
  · exact ⟨(ppuLoop_inv c b hc hlc).1, (ppuLoop_inv c b hc hlc).2⟩
  · exact ppuLoop_inv c b hc hlc
  · exact ⟨by norm_num, fun hh => absurd hh (by norm_num)⟩

/-- C8 (as amended): after a bus step with a positive truncated cycle count
and a dot counter below 456, the dot counter is again below 456, and the
mode/line coupling (mode = 1 exactly when LY ≥ 144) holds whenever the step
did not end exactly on a line boundary (dot counter 0); at a boundary the
stored mode lags the new line until the next loop iteration, and the LCD-off
branch forces mode 0 with the counter reset, so the coupling as originally
claimed does not hold unconditionally. -/
theorem claim_C8_mode_line (b : Bus) (cycles : Nat)
    (hlc : b.ppu_line_cycle < 456) (hc : cycles % 4294967296 ≠ 0) :
    (Bus.step b cycles).ppu_line_cycle < 456 ∧
    (0 < (Bus.step b cycles).ppu_line_cycle →
      ((Bus.step b cycles).ppu_mode = 1 ↔ 144 ≤ (Bus.step b cycles).ly)) := by
  unfold Bus.step
  dsimp only
  have h1 : ((Bus.stepDiv b (cycles % 4294967296)).stepTimer
      (cycles % 4294967296)).ppu_line_cycle < 456 := by
    rw [stepTimer_lc, stepDiv_lc]; exact hlc
  exact stepPpu_inv _ _ h1 hc

/-- Counterexample to C8 as stated: from LCD on, LY = 143, mode 0, dot 455,
a single-cycle bus step crosses the line boundary into LY = 144 but leaves
the stored mode at 0 — the mode only becomes 1 at the top of the next PPU
loop iteration, so "LY ≥ 144 implies mode = 1" fails right after the step. -/
theorem claim_C8_boundary_lag :
    (Bus.step c8bus 1).ly = 144 ∧ (Bus.step c8bus 1).ppu_mode = 0 := by
  have hX : (Bus.stepDiv c8bus 1).stepTimer 1 = { c8bus with div_counter := 1 } := by
    unfold Bus.stepDiv Bus.stepTimer
    dsimp only
    rw [if_neg (by decide), if_neg (by decide)]
    rw [show (c8bus.div_counter + 1) % 4294967296 = 1 from by decide]
  have hloop : Bus.ppuLoop 1 { c8bus with div_counter := 1 } =
      (Bus.ppuIterate { c8bus with div_counter := 1 } 1).1 := by
    unfold Bus.ppuLoop
    rw [dif_neg (by norm_num : (1 : Nat) ≠ 0)]
    dsimp only
    rw [dif_neg (by decide :
      ¬(Bus.ppuIterate { c8bus with div_counter := 1 } 1).2 = 0)]
    rw [show (1 : Nat) - (Bus.ppuIterate { c8bus with div_counter := 1 } 1).2 = 0
      from by decide]
    exact ppuLoop_zero _
  have hstep : Bus.step c8bus 1 =
      (Bus.ppuIterate { c8bus with div_counter := 1 } 1).1 := by
    unfold Bus.step
    dsimp only
    rw [show (1 : Nat) % 4294967296 = 1 from by decide]
    rw [hX]
    unfold Bus.stepPpu
    dsimp only
    rw [if_pos (by decide), hloop, if_neg (by decide)]
  rw [hstep]
  exact ⟨by decide, by decide⟩

/-- Witness for C8 at the boundary state and one cycle: both hypotheses hold
and the amended conclusion is established there. -/
theorem claim_C8_mode_line_witness :
    c8bus.ppu_line_cycle < 456 ∧ (1 : Nat) % 4294967296 ≠ 0 ∧
    (Bus.step c8bus 1).ppu_line_cycle < 456 ∧
    (0 < (Bus.step c8bus 1).ppu_line_cycle →
      ((Bus.step c8bus 1).ppu_mode = 1 ↔ 144 ≤ (Bus.step c8bus 1).ly)) := by
  have h := claim_C8_mode_line c8bus 1 (by decide) (by decide)
  exact ⟨by decide, by decide, h.1, h.2⟩
